import Mathlib

/-!
Shallow embedding of the ExcelCompare matching/diff engine.

Sources embedded:
* `src/src/models/excel_model.py`   — cell/sheet/workbook data model
* `src/src/models/diff_model.py`    — `DiffType`, `DiffResult`, `DiffSummary`
* `src/src/services/compare_service.py` — `CompareService` (exact / numeric /
  formula / structure modes, cell rule, style rule, `_mark_all_cells`)
* `src/src/services/smart_compare_service.py` — `SmartCompareService`
  (`build_key_map`, `_compare_by_key`, `build_header_map`, `_compare_by_header`,
  `_compare_by_position`, `compare_with_range`)
* `src/src/views/main_window.py`    — the comparison handlers embedded in the
  UI layer (`_compare_with_smart_match`, `_compare_selection`,
  `_compare_selection_smart`, `_compare_by_position`, `_values_differ`,
  `_get_diff_type`)

Python dynamic values are modelled by the tagged union `PyVal` (the only value
shapes the compared grids hold: `None`, `str`, numbers).  Python dictionaries
are modelled by association lists with insert-or-overwrite-in-place semantics,
matching CPython's insertion-ordered dicts.  Python `set` iteration order is
unspecified; wherever the source iterates a set, the embedding either fixes a
canonical order (when no claim depends on it) or takes the enumeration as an
explicit parameter (the key loops of the `main_window` handlers, where the
order is observable in the output).
-/

/-- Python runtime value as it appears in the compared grids: `None`,
a string, or a number (int/float, modelled as a rational). -/
inductive PyVal where
  | none : PyVal
  | str : String → PyVal
  | num : ℚ → PyVal
deriving DecidableEq, Repr

/-- Python `str.lower()` on the character list (ASCII-faithful). -/
def pyLowerL (l : List Char) : List Char := l.map Char.toLower

/-- Whitespace test used by Python `str.strip()`. -/
def pyIsSpace (c : Char) : Bool := c.isWhitespace

/-- Python `str.strip()` on the character list: drop leading and
trailing whitespace. -/
def pyStripL (l : List Char) : List Char :=
  ((l.dropWhile pyIsSpace).reverse.dropWhile pyIsSpace).reverse

/-- Python `s.lower()`. -/
def pyLower (s : String) : String := ⟨pyLowerL s.data⟩

/-- Python `s.strip()`. -/
def pyStrip (s : String) : String := ⟨pyStripL s.data⟩

/-- Python string `<=` (lexicographic by code point), used to model the
comparator underlying `sorted(..., key=str)`. -/
def charListLe : List Char → List Char → Bool
  | [], _ => true
  | _ :: _, [] => false
  | a :: as, b :: bs => if a < b then true else if a = b then charListLe as bs else false

/-- `a <= b` on Python strings. -/
def pyStrLe (a b : String) : Bool := charListLe a.data b.data

/-- Python `str(v)`.  String and `None` cases are exact; the decimal
rendering of a non-integral number is abstracted (no claim in this
development evaluates it). -/
def pyStr : PyVal → String
  | .none => "None"
  | .str s => s
  | .num q => if q.den = 1 then toString q.num else toString q.num ++ "/" ++ toString q.den

/-- Python truthiness of a grid value: `None`, `""` and `0` are falsy. -/
def pyTruthy : PyVal → Bool
  | .none => false
  | .str s => s ≠ ""
  | .num q => q ≠ 0

/-- `v is None or v == ""` — the emptiness test the comparison code uses.
(Python `0 == ""` is `False`, so a numeric `0` is *not* empty here.) -/
def pyIsEmpty (v : PyVal) : Bool := v = .none ∨ v = .str ""

/-- Python `float(s)` on a stripped string: optional sign, a non-empty run
of digits, optionally a dot and a further digit run.  Returns `none` for
unparsable input (the `ValueError` branch of `_to_numeric`). -/
def parseDigits : List Char → Option ℕ
  | [] => Option.none
  | l => l.foldl (fun acc c =>
      acc.bind (fun n => if c.isDigit then some (n * 10 + (c.toNat - '0'.toNat)) else Option.none))
      (some 0)

/-- Parse the unsigned part `digits[.digits]` of a float literal. -/
def parseUnsignedFloat (l : List Char) : Option ℚ :=
  match l.splitOn '.' with
  | [intPart] => (parseDigits intPart).map (fun n => (n : ℚ))
  | [intPart, fracPart] =>
      match parseDigits intPart, parseDigits fracPart with
      | some n, some f => some ((n : ℚ) + (f : ℚ) / ((10 : ℚ) ^ fracPart.length))
      | _, _ => Option.none
  | _ => Option.none

/-- Python `float(s)` (whitespace is tolerated, as in CPython). -/
def pyParseFloat (s : String) : Option ℚ :=
  match pyStripL s.data with
  | '-' :: rest => (parseUnsignedFloat rest).map (fun q => -q)
  | '+' :: rest => parseUnsignedFloat rest
  | rest => parseUnsignedFloat rest

/-- Insert-or-overwrite on an association list: CPython dict assignment
`d[k] = v` (an existing binding is updated in place, keeping its original
position; a new key is appended). -/
def dictInsert {κ ν : Type} [DecidableEq κ] (m : List (κ × ν)) (k : κ) (v : ν) :
    List (κ × ν) :=
  if (m.map Prod.fst).contains k then
    m.map (fun p => if p.1 = k then (k, v) else p)
  else m ++ [(k, v)]

/-- Python `d.get(k)` / `d[k]`. -/
def dictGet {κ ν : Type} [DecidableEq κ] (m : List (κ × ν)) (k : κ) : Option ν :=
  (m.find? (fun p => p.1 = k)).map Prod.snd

/-- Python `d.keys()` (insertion order). -/
def dictKeys {κ ν : Type} (m : List (κ × ν)) : List κ := m.map Prod.fst

/-- Python `k in d`. -/
def dictMem {κ ν : Type} [DecidableEq κ] (m : List (κ × ν)) (k : κ) : Bool :=
  (m.map Prod.fst).contains k

/-! ## Data model (`excel_model.py`, `diff_model.py`) -/

/-- `CellType` of `excel_model.py`. -/
inductive CellType where
  | empty | string | number | boolean | date | formula | error
deriving DecidableEq, Repr

/-- `CellStyle` of `excel_model.py` (all nine dataclass fields). -/
structure CellStyle where
  font_name : Option String := Option.none
  font_size : Option ℚ := Option.none
  font_bold : Bool := false
  font_italic : Bool := false
  font_color : Option String := Option.none
  bg_color : Option String := Option.none
  border : Option String := Option.none
  alignment : Option String := Option.none
  number_format : Option String := Option.none
deriving DecidableEq, Repr

/-- `CellData` of `excel_model.py`. -/
structure CellData where
  value : PyVal := .none
  formula : Option String := Option.none
  cell_type : CellType := .empty
  style : Option CellStyle := Option.none
  comment : Option String := Option.none
deriving DecidableEq, Repr

/-- `CellData.is_empty`. -/
def CellData.is_empty (c : CellData) : Bool := pyIsEmpty c.value

/-- `SheetData` of `excel_model.py`.  `row_count`/`col_count` are stored
fields, exactly as in the dataclass (the loader sets them to the grid
extent). -/
structure SheetData where
  name : String
  rows : List (List CellData) := []
  row_count : ℕ := 0
  col_count : ℕ := 0
deriving DecidableEq, Repr

/-- `SheetData.get_cell`: in-bounds access into the jagged `rows` list,
`None` otherwise. -/
def SheetData.get_cell (s : SheetData) (row col : ℕ) : Option CellData :=
  match s.rows.get? row with
  | Option.none => Option.none
  | some r => r.get? col

/-- `WorkbookData` of `excel_model.py` (the fields the comparison reads). -/
structure WorkbookData where
  file_name : String
  sheets : List SheetData := []
  sheet_names : List String := []
deriving DecidableEq, Repr

/-- `WorkbookData.get_sheet`: first sheet with the given name. -/
def WorkbookData.get_sheet (w : WorkbookData) (name : String) : Option SheetData :=
  w.sheets.find? (fun s => s.name = name)

/-- `DiffType` of `diff_model.py`. -/
inductive DiffType where
  | modified | added | deleted | format_changed
deriving DecidableEq, Repr

/-- `DiffResult` of `diff_model.py`.  `old_value`/`new_value` default to
Python `None` (`PyVal.none`); `row_b`/`col_b` default to `None`
(`Option.none`). -/
structure DiffResult where
  sheet : String
  row : ℕ
  col : ℕ
  diff_type : DiffType
  old_value : PyVal := .none
  new_value : PyVal := .none
  old_formula : Option String := Option.none
  new_formula : Option String := Option.none
  row_b : Option ℕ := Option.none
  col_b : Option ℕ := Option.none
deriving DecidableEq, Repr

/-- `DiffSummary` of `diff_model.py`. -/
structure DiffSummary where
  total : ℕ := 0
  modified : ℕ := 0
  added : ℕ := 0
  deleted : ℕ := 0
  format_changed : ℕ := 0
deriving DecidableEq, Repr

/-- `DiffSummary.add_diff`. -/
def DiffSummary.add_diff (s : DiffSummary) (t : DiffType) : DiffSummary :=
  let s := { s with total := s.total + 1 }
  match t with
  | .modified => { s with modified := s.modified + 1 }
  | .added => { s with added := s.added + 1 }
  | .deleted => { s with deleted := s.deleted + 1 }
  | .format_changed => { s with format_changed := s.format_changed + 1 }

/-- `CompareOptions` of `compare_service.py` (defaults as in `__init__`). -/
structure CompareOptions where
  ignore_format : Bool := true
  ignore_empty_rows : Bool := false
  ignore_empty_cols : Bool := false
  ignore_case : Bool := false
  ignore_whitespace : Bool := false
  ignore_hidden : Bool := false
  ignore_comments : Bool := true
deriving DecidableEq, Repr

/-! ## `CompareService` (`compare_service.py`) -/

/-- `CompareMode` of `compare_service.py` (`STRUCTURE` is spelled
`struct` here because `structure` is a Lean keyword). -/
inductive CompareMode where
  | exact | numeric | struct | formula
deriving DecidableEq, Repr

/-- Python `float(v)` on a cell value: numbers pass through, strings are
parsed as float literals, `None` is unparsable.  (In `_to_numeric` the
`STRING` branch catches the parse failure; the `NUMBER` branch never sees
one because `NUMBER`-typed cells hold numeric values.) -/
def pyFloatOfVal : PyVal → Option ℚ
  | .num q => some q
  | .str s => pyParseFloat s
  | .none => Option.none

/-- `CompareService._to_numeric`. -/
def toNumeric : Option CellData → Option ℚ
  | Option.none => Option.none
  | some c =>
      match c.cell_type with
      | .number => pyFloatOfVal c.value
      | .string => pyFloatOfVal c.value
      | _ => Option.none

/-- The `Optional[float]` results of `_to_numeric` as they are stored into
`DiffResult.old_value` / `new_value` (Python `None` or a float). -/
def optQToVal : Option ℚ → PyVal
  | Option.none => .none
  | some q => .num q

/-- Cell-value normalization as inlined in `_compare_cells`: lower-case
only when *both* sides are strings, strip each string side
independently. -/
def normalizePair (options : CompareOptions) (va vb : PyVal) : PyVal × PyVal :=
  let (va, vb) :=
    if options.ignore_case then
      match va, vb with
      | .str a, .str b => (.str (pyLower a), .str (pyLower b))
      | _, _ => (va, vb)
    else (va, vb)
  let va := if options.ignore_whitespace then
      match va with | .str a => .str (pyStrip a) | _ => va
    else va
  let vb := if options.ignore_whitespace then
      match vb with | .str b => .str (pyStrip b) | _ => vb
    else vb
  (va, vb)

/-- `CompareService._compare_styles`. -/
def compareStyles (cell_a cell_b : Option CellData) : Bool :=
  let style_a := cell_a.bind CellData.style
  let style_b := cell_b.bind CellData.style
  match style_a, style_b with
  | Option.none, Option.none => false
  | Option.none, some _ => true
  | some _, Option.none => true
  | some a, some b =>
      a.font_name ≠ b.font_name ∨ a.font_size ≠ b.font_size ∨
      a.font_bold ≠ b.font_bold ∨ a.bg_color ≠ b.bg_color

/-- `cell.value if cell else None`. -/
def optCellVal : Option CellData → PyVal
  | some c => c.value
  | Option.none => .none

/-- `CompareService._compare_cells`. -/
def compareCells (sheet_name : String) (row col : ℕ)
    (cell_a cell_b : Option CellData) (options : CompareOptions) :
    Option DiffResult :=
  let raw_a := optCellVal cell_a
  let raw_b := optCellVal cell_b
  let val_a := (normalizePair options raw_a raw_b).1
  let val_b := (normalizePair options raw_a raw_b).2
  let is_empty_a := pyIsEmpty val_a
  let is_empty_b := pyIsEmpty val_b
  if is_empty_a ∧ is_empty_b then Option.none
  else if val_a = val_b then
    if ¬options.ignore_format ∧ compareStyles cell_a cell_b then
      some { sheet := sheet_name, row := row, col := col,
             diff_type := .format_changed, old_value := val_a, new_value := val_b }
    else Option.none
  else
    let diff_type : DiffType :=
      if is_empty_a ∧ ¬is_empty_b then .added
      else if ¬is_empty_a ∧ is_empty_b then .deleted
      else .modified
    some { sheet := sheet_name, row := row, col := col, diff_type := diff_type,
           old_value := raw_a, new_value := raw_b }

/-- `CompareService._is_row_empty`. -/
def isRowEmpty (sheet : SheetData) (row : ℕ) : Bool :=
  match sheet.rows.get? row with
  | Option.none => true
  | some r => r.all CellData.is_empty

/-- `CompareService._compare_exact`. -/
def compareExact (sheet_a sheet_b : SheetData) (options : CompareOptions) :
    List DiffResult :=
  let max_rows := max sheet_a.row_count sheet_b.row_count
  let max_cols := max sheet_a.col_count sheet_b.col_count
  (List.range max_rows).flatMap (fun row =>
    if options.ignore_empty_rows ∧ isRowEmpty sheet_a row ∧ isRowEmpty sheet_b row then []
    else (List.range max_cols).filterMap (fun col =>
      compareCells sheet_a.name row col (sheet_a.get_cell row col)
        (sheet_b.get_cell row col) options))

/-- `CompareService._compare_numeric` (the per-cell body of the loops). -/
def numericCellDiff (sheet_name : String) (row col : ℕ)
    (cell_a cell_b : Option CellData) : Option DiffResult :=
  let val_a := toNumeric cell_a
  let val_b := toNumeric cell_b
  if val_a ≠ val_b then
    let diff_type : DiffType :=
      if val_a = Option.none ∧ val_b ≠ Option.none then .added
      else if val_a ≠ Option.none ∧ val_b = Option.none then .deleted
      else .modified
    some { sheet := sheet_name, row := row, col := col, diff_type := diff_type,
           old_value := optQToVal val_a, new_value := optQToVal val_b }
  else Option.none

/-- `CompareService._compare_numeric`. -/
def compareNumeric (sheet_a sheet_b : SheetData) (_options : CompareOptions) :
    List DiffResult :=
  let max_rows := max sheet_a.row_count sheet_b.row_count
  let max_cols := max sheet_a.col_count sheet_b.col_count
  (List.range max_rows).flatMap (fun row =>
    (List.range max_cols).filterMap (fun col =>
      numericCellDiff sheet_a.name row col (sheet_a.get_cell row col)
        (sheet_b.get_cell row col)))

/-- `CompareService._compare_formula`. -/
def compareFormula (sheet_a sheet_b : SheetData) (options : CompareOptions) :
    List DiffResult :=
  let max_rows := max sheet_a.row_count sheet_b.row_count
  let max_cols := max sheet_a.col_count sheet_b.col_count
  (List.range max_rows).flatMap (fun row =>
    (List.range max_cols).filterMap (fun col =>
      let cell_a := sheet_a.get_cell row col
      let cell_b := sheet_b.get_cell row col
      let formula_a := cell_a.bind CellData.formula
      let formula_b := cell_b.bind CellData.formula
      match formula_a, formula_b with
      | Option.none, Option.none =>
          compareCells sheet_a.name row col cell_a cell_b options
      | fa, fb =>
          if fa ≠ fb then
            let diff_type : DiffType :=
              if fa = Option.none ∧ fb ≠ Option.none then .added
              else if fa ≠ Option.none ∧ fb = Option.none then .deleted
              else .modified
            some { sheet := sheet_a.name, row := row, col := col,
                   diff_type := diff_type,
                   old_value := match cell_a with | some c => c.value | Option.none => .none,
                   new_value := match cell_b with | some c => c.value | Option.none => .none,
                   old_formula := fa, new_formula := fb }
          else Option.none))

/-- `CompareService._compare_structure` (the simplified row-count delta
plus an exact compare of the common rectangle). -/
def compareStructure (sheet_a sheet_b : SheetData) (options : CompareOptions) :
    List DiffResult :=
  let rowDelta :=
    if sheet_a.row_count < sheet_b.row_count then
      ((List.range' sheet_a.row_count (sheet_b.row_count - sheet_a.row_count)).flatMap
        (fun row => (List.range sheet_b.col_count).filterMap (fun col =>
          match sheet_b.get_cell row col with
          | some cell =>
              if ¬cell.is_empty then
                some { sheet := sheet_a.name, row := row, col := col,
                       diff_type := DiffType.added, new_value := cell.value }
              else Option.none
          | Option.none => Option.none)))
    else if sheet_b.row_count < sheet_a.row_count then
      ((List.range' sheet_b.row_count (sheet_a.row_count - sheet_b.row_count)).flatMap
        (fun row => (List.range sheet_a.col_count).filterMap (fun col =>
          match sheet_a.get_cell row col with
          | some cell =>
              if ¬cell.is_empty then
                some { sheet := sheet_a.name, row := row, col := col,
                       diff_type := DiffType.deleted, old_value := cell.value }
              else Option.none
          | Option.none => Option.none)))
    else []
  let common_rows := min sheet_a.row_count sheet_b.row_count
  let common_cols := min sheet_a.col_count sheet_b.col_count
  rowDelta ++ (List.range common_rows).flatMap (fun row =>
    (List.range common_cols).filterMap (fun col =>
      compareCells sheet_a.name row col (sheet_a.get_cell row col)
        (sheet_b.get_cell row col) options))

/-- `CompareService._mark_all_cells`. -/
def markAllCells (sheet : SheetData) (diff_type : DiffType) (is_new : Bool) :
    List DiffResult :=
  (List.range sheet.row_count).flatMap (fun row =>
    (List.range sheet.col_count).filterMap (fun col =>
      match sheet.get_cell row col with
      | some cell =>
          if ¬cell.is_empty then
            some { sheet := sheet.name, row := row, col := col,
                   diff_type := diff_type,
                   old_value := if is_new then .none else cell.value,
                   new_value := if is_new then cell.value else .none }
          else Option.none
      | Option.none => Option.none))

/-- The per-sheet dispatch of `CompareService.compare` (body of the
`for sheet_name in sheets_to_compare` loop).  A name found in neither
workbook (unreachable for names of the compared set) yields `[]`. -/
def compareSheetDiffs (wa wb : WorkbookData) (mode : CompareMode)
    (options : CompareOptions) (sheet_name : String) : List DiffResult :=
  match wa.get_sheet sheet_name, wb.get_sheet sheet_name with
  | Option.none, some sheet_b => markAllCells sheet_b .added true
  | some sheet_a, Option.none => markAllCells sheet_a .deleted false
  | some sheet_a, some sheet_b =>
      match mode with
      | .exact => compareExact sheet_a sheet_b options
      | .numeric => compareNumeric sheet_a sheet_b options
      | .formula => compareFormula sheet_a sheet_b options
      | .struct => compareStructure sheet_a sheet_b options
  | Option.none, Option.none => []

/-- Membership in `sheets_to_compare` of `CompareService.compare`:
the union of both workbooks' sheet-name sets, intersected with
`selected_sheets` when that argument is truthy (a non-empty list). -/
def sheetInTarget (wa wb : WorkbookData) (selected : Option (List String))
    (name : String) : Bool :=
  let inUnion := name ∈ wa.sheet_names ∨ name ∈ wb.sheet_names
  match selected with
  | some l => if l ≠ [] then name ∈ l ∧ inUnion else inUnion
  | Option.none => inUnion

/-- `CompareResult` of `diff_model.py` (the fields `compare` fills). -/
structure CompareResult where
  file_a : String
  file_b : String
  diffs : List DiffResult
  summary : DiffSummary
deriving DecidableEq, Repr

/-- The per-sheet accumulation step of `CompareService.compare`: extend
the diff list and update the running summary. -/
def compareStep (wa wb : WorkbookData) (mode : CompareMode)
    (options : CompareOptions) (acc : List DiffResult × DiffSummary)
    (sheet_name : String) : List DiffResult × DiffSummary :=
  (acc.1 ++ compareSheetDiffs wa wb mode options sheet_name,
   (compareSheetDiffs wa wb mode options sheet_name).foldl
     (fun s d => s.add_diff d.diff_type) acc.2)

/-- `CompareService.compare`: fold of `compareStep` over the sheet
enumeration.  `sheets_to_compare` is a Python `set`, whose iteration
order is unspecified; the embedding takes the enumeration `sheetOrder`
as a parameter (theorems relate it to `sheetInTarget`). -/
def CompareService.compare (wa wb : WorkbookData) (mode : CompareMode)
    (options : CompareOptions) (sheetOrder : List String) : CompareResult :=
  { file_a := wa.file_name, file_b := wb.file_name,
    diffs := (sheetOrder.foldl (compareStep wa wb mode options) ([], {})).1,
    summary := (sheetOrder.foldl (compareStep wa wb mode options) ([], {})).2 }

/-! ## `SmartCompareService` (`smart_compare_service.py`) -/

/-- `CellRange` of `smart_compare_service.py` (0-indexed, inclusive). -/
structure CellRange where
  start_row : ℕ
  start_col : ℕ
  end_row : ℕ
  end_col : ℕ
deriving DecidableEq, Repr

/-- `SmartCompareOptions` of `smart_compare_service.py` (defaults as in
the dataclass). -/
structure SmartCompareOptions where
  range_a : Option CellRange := Option.none
  range_b : Option CellRange := Option.none
  use_header_row : Bool := false
  header_row_index : ℕ := 0
  use_key_column : Bool := false
  key_column_index : ℕ := 0
  ignore_case : Bool := false
  ignore_whitespace : Bool := false
  ignore_empty_rows : Bool := false
deriving DecidableEq, Repr

/-- `row[c] if c < len(row) else None`. -/
def rowGetVal (row : List PyVal) (c : ℕ) : PyVal := (row.get? c).getD .none

/-- `data[r][c]` guarded by both bounds checks, else `None`. -/
def dataGetVal (data : List (List PyVal)) (r c : ℕ) : PyVal :=
  match data.get? r with
  | some row => rowGetVal row c
  | Option.none => .none

/-- The value normalization inlined throughout `smart_compare_service.py`
and `main_window.py`: lower-case a string side when `ignore_case`, then
strip it when `ignore_whitespace` — each side independently. -/
def smartNorm (ic iw : Bool) (v : PyVal) : PyVal :=
  let v := if ic then match v with | .str s => .str (pyLower s) | _ => v else v
  if iw then match v with | .str s => .str (pyStrip s) | _ => v else v

/-- The three-way classification inlined in `_compare_by_key`,
`_compare_by_header` and `_compare_by_position` (note: tested on the *raw*
values, not the normalized ones). -/
def smartDiffType (val_a val_b : PyVal) : DiffType :=
  if pyIsEmpty val_a ∧ val_b ≠ .none then .added
  else if val_a ≠ .none ∧ pyIsEmpty val_b then .deleted
  else .modified

/-- `SmartCompareService._extract_range_data`. -/
def extractRangeData (sheet : SheetData) : Option CellRange → List (List PyVal)
  | Option.none => sheet.rows.map (fun row => row.map CellData.value)
  | some r =>
      (List.range' r.start_row (r.end_row + 1 - r.start_row)).map (fun i =>
        (List.range' r.start_col (r.end_col + 1 - r.start_col)).map (fun j =>
          match sheet.get_cell i j with | some c => c.value | Option.none => .none))

/-- Key normalization in `build_key_map`: applied *after* the
non-emptiness test on the raw key. -/
def buildKeyMapNorm (options : SmartCompareOptions) (key : PyVal) : PyVal :=
  smartNorm options.ignore_case options.ignore_whitespace key

/-- `build_key_map` (local function of `_compare_by_key`): a dict
`key -> (row_index, row_values)`; a later row with the same key
*overwrites* the earlier binding. -/
def build_key_map (options : SmartCompareOptions) (data : List (List PyVal))
    (skip_header : Bool) : List (PyVal × (ℕ × List PyVal)) :=
  let key_col := options.key_column_index
  let start_row := if skip_header then options.header_row_index + 1 else 0
  (List.enumFrom start_row (data.drop start_row)).foldl
    (fun key_map (i, row) =>
      if key_col < row.length then
        let key := rowGetVal row key_col
        if key ≠ .none ∧ key ≠ .str "" then
          dictInsert key_map (buildKeyMapNorm options key) (i, row)
        else key_map
      else key_map)
    []

/-- `build_header_map` (local function of `_compare_by_header`): header
text to column index, normalized only per the configured options. -/
def build_header_map (options : SmartCompareOptions) (headers : List PyVal) :
    List (String × ℕ) :=
  headers.enum.foldl
    (fun header_map (idx, h) =>
      if h ≠ .none ∧ h ≠ .str "" then
        let key := pyStr h
        let key := if options.ignore_case then pyLower key else key
        let key := if options.ignore_whitespace then pyStrip key else key
        dictInsert header_map key idx
      else header_map)
    []

/-- Union of two key sets (`set(a) | set(b)`) as a deduplicating append:
the Python set order is unspecified, the embedding fixes first-occurrence
order (in `_compare_by_key` the subsequent `sorted(..., key=str)` makes
it immaterial up to keys with equal string forms). -/
def dedupUnion {α : Type} [DecidableEq α] (ka kb : List α) : List α :=
  (ka ++ kb).foldl (fun acc k => if acc.contains k then acc else acc ++ [k]) []

/-- `sorted(all_keys, key=lambda x: str(x))` of `_compare_by_key`:
a stable sort by the key's string form (Python's sort is stable;
`List.insertionSort` is the stable sort). -/
def sortKeysByStr (keys : List PyVal) : List PyVal :=
  keys.insertionSort (fun a b => pyStrLe (pyStr a) (pyStr b))

/-- The per-cell comparison of two key-matched rows in
`_compare_by_key` (the `else` branch body, one `col_idx`). -/
def keyRowCellDiff (sheet_name : String) (options : SmartCompareOptions)
    (row_offset col_offset : ℕ) (row_idx_a : ℕ)
    (row_data_a row_data_b : List PyVal) (col_idx : ℕ) : Option DiffResult :=
  let val_a := rowGetVal row_data_a col_idx
  let val_b := rowGetVal row_data_b col_idx
  let cmp_a := smartNorm options.ignore_case options.ignore_whitespace val_a
  let cmp_b := smartNorm options.ignore_case options.ignore_whitespace val_b
  if cmp_a ≠ cmp_b then
    some { sheet := sheet_name, row := row_idx_a + row_offset,
           col := col_idx + col_offset,
           diff_type := smartDiffType val_a val_b,
           old_value := val_a, new_value := val_b }
  else Option.none

/-- One whole-row record batch for a key present on one side only in
`_compare_by_key` (`is_added` selects the `row_a is None` branch). -/
def keyWholeRow (sheet_name : String) (row_offset col_offset : ℕ)
    (row_idx : ℕ) (row_data : List PyVal) (is_added : Bool) : List DiffResult :=
  row_data.enum.filterMap (fun (col_idx, value) =>
    if value ≠ .none ∧ value ≠ .str "" then
      some (if is_added then
        { sheet := sheet_name, row := row_idx + row_offset,
          col := col_idx + col_offset, diff_type := DiffType.added,
          new_value := value }
      else
        { sheet := sheet_name, row := row_idx + row_offset,
          col := col_idx + col_offset, diff_type := DiffType.deleted,
          old_value := value })
    else Option.none)

/-- `SmartCompareService._compare_by_key`. -/
def compare_by_key (sheet_name : String) (data_a data_b : List (List PyVal))
    (options : SmartCompareOptions) (row_offset col_offset : ℕ) :
    List DiffResult :=
  let map_a := build_key_map options data_a options.use_header_row
  let map_b := build_key_map options data_b options.use_header_row
  let all_keys := dedupUnion (dictKeys map_a) (dictKeys map_b)
  (sortKeysByStr all_keys).flatMap (fun key =>
    match dictGet map_a key, dictGet map_b key with
    | Option.none, some (row_idx, row_data) =>
        keyWholeRow sheet_name row_offset col_offset row_idx row_data true
    | some (row_idx, row_data), Option.none =>
        keyWholeRow sheet_name row_offset col_offset row_idx row_data false
    | some (row_idx_a, row_data_a), some (_row_idx_b, row_data_b) =>
        (List.range (max row_data_a.length row_data_b.length)).filterMap
          (keyRowCellDiff sheet_name options row_offset col_offset
            row_idx_a row_data_a row_data_b)
    | Option.none, Option.none => [])

/-- `SmartCompareService._compare_by_header`.  The out-of-bounds header
row *raises* (`ValueError`), modelled by `Except.error`. -/
def compare_by_header (sheet_name : String) (data_a data_b : List (List PyVal))
    (options : SmartCompareOptions) (row_offset col_offset : ℕ) :
    Except String (List DiffResult) :=
  let header_row := options.header_row_index
  if header_row ≥ data_a.length ∨ header_row ≥ data_b.length then
    .error "header row index out of data range"
  else
    let headers_a := (data_a.get? header_row).getD []
    let headers_b := (data_b.get? header_row).getD []
    let map_a := build_header_map options headers_a
    let map_b := build_header_map options headers_b
    let common_headers := (dictKeys map_a).filter (fun h => dictMem map_b h)
    let data_start := header_row + 1
    let max_rows := max data_a.length data_b.length - data_start
    .ok (common_headers.flatMap (fun header =>
      match dictGet map_a header, dictGet map_b header with
      | some col_a, some col_b =>
          (List.range max_rows).filterMap (fun row_offset_local =>
            let row_idx := data_start + row_offset_local
            let val_a := dataGetVal data_a row_idx col_a
            let val_b := dataGetVal data_b row_idx col_b
            if options.ignore_empty_rows ∧ pyIsEmpty val_a ∧ pyIsEmpty val_b then
              Option.none
            else
              let cmp_a := smartNorm options.ignore_case options.ignore_whitespace val_a
              let cmp_b := smartNorm options.ignore_case options.ignore_whitespace val_b
              if cmp_a ≠ cmp_b then
                some { sheet := sheet_name, row := row_idx + row_offset,
                       col := col_a + col_offset,
                       diff_type := smartDiffType val_a val_b,
                       old_value := val_a, new_value := val_b }
              else Option.none)
      | _, _ => []))

/-- `SmartCompareService._compare_by_position`. -/
def compare_by_position (sheet_name : String) (data_a data_b : List (List PyVal))
    (options : SmartCompareOptions) (row_offset col_offset : ℕ) :
    List DiffResult :=
  let max_rows := max data_a.length data_b.length
  let max_cols := max ((data_a.map List.length).foldr max 0)
      ((data_b.map List.length).foldr max 0)
  (List.range max_rows).flatMap (fun row_idx =>
    let row_a := (data_a.get? row_idx).getD []
    let row_b := (data_b.get? row_idx).getD []
    (List.range max_cols).filterMap (fun col_idx =>
      let val_a := rowGetVal row_a col_idx
      let val_b := rowGetVal row_b col_idx
      if options.ignore_empty_rows ∧ pyIsEmpty val_a ∧ pyIsEmpty val_b then
        Option.none
      else
        let cmp_a := smartNorm options.ignore_case options.ignore_whitespace val_a
        let cmp_b := smartNorm options.ignore_case options.ignore_whitespace val_b
        if cmp_a ≠ cmp_b then
          some { sheet := sheet_name, row := row_idx + row_offset,
                 col := col_idx + col_offset,
                 diff_type := smartDiffType val_a val_b,
                 old_value := val_a, new_value := val_b }
        else Option.none))

/-- `SmartCompareService.compare_with_range`.  A missing sheet and an
out-of-bounds header row raise, modelled by `Except.error`. -/
def compare_with_range (wa wb : WorkbookData) (sheet_name : String)
    (options : SmartCompareOptions) : Except String CompareResult :=
  match wa.get_sheet sheet_name, wb.get_sheet sheet_name with
  | some sheet_a, some sheet_b =>
      let row_offset_a := (options.range_a.map CellRange.start_row).getD 0
      let col_offset_a := (options.range_a.map CellRange.start_col).getD 0
      let data_a := extractRangeData sheet_a options.range_a
      let data_b := extractRangeData sheet_b options.range_b
      let diffsE : Except String (List DiffResult) :=
        if options.use_key_column then
          .ok (compare_by_key sheet_name data_a data_b options row_offset_a col_offset_a)
        else if options.use_header_row then
          compare_by_header sheet_name data_a data_b options row_offset_a col_offset_a
        else
          .ok (compare_by_position sheet_name data_a data_b options row_offset_a col_offset_a)
      diffsE.map (fun diffs =>
        { file_a := wa.file_name, file_b := wb.file_name, diffs := diffs,
          summary := diffs.foldl (fun s d => s.add_diff d.diff_type) {} })
  | _, _ => .error "sheet must exist in both files"

/-! ## `main_window.py` comparison handlers -/

/-- `MainWindow._values_differ` (Python truthiness and `!=` semantics). -/
def values_differ (val_a val_b : PyVal) (options : CompareOptions) : Bool :=
  let cmp_a := smartNorm options.ignore_case options.ignore_whitespace val_a
  let cmp_b := smartNorm options.ignore_case options.ignore_whitespace val_b
  if options.ignore_empty_rows ∧ pyIsEmpty cmp_a ∧ pyIsEmpty cmp_b then false
  else cmp_a ≠ cmp_b

/-- `MainWindow._get_diff_type`: classification by *truthiness* of the
raw values (`if (val_a is None or val_a == "") and val_b`). -/
def get_diff_type (val_a val_b : PyVal) : DiffType :=
  if pyIsEmpty val_a ∧ pyTruthy val_b then .added
  else if pyTruthy val_a ∧ pyIsEmpty val_b then .deleted
  else .modified

/-- The header map built in `_compare_with_smart_match` (one side):
`str(val).strip().lower()` *unconditionally* — the inline comment in the
source reads "标题匹配始终忽略大小写" (header matching always ignores
case). -/
def mwHeaderStep (sheet : SheetData) (header_row : ℕ)
    (headers : List (String × ℕ)) (col_idx : ℕ) : List (String × ℕ) :=
  if optCellVal (sheet.get_cell header_row col_idx) ≠ .none ∧
      pyStrip (pyStr (optCellVal (sheet.get_cell header_row col_idx))) ≠ "" then
    dictInsert headers
      (pyLower (pyStrip (pyStr (optCellVal (sheet.get_cell header_row col_idx)))))
      col_idx
  else headers

/-- Fold of `mwHeaderStep` over the sheet's column range. -/
def mwBuildHeaders (sheet : SheetData) (header_row : ℕ) : List (String × ℕ) :=
  (List.range sheet.col_count).foldl (mwHeaderStep sheet header_row) []

/-- The `col_map_a_to_b` construction of `_compare_with_smart_match`:
iterate A's header dict in insertion order, keep names present in B. -/
def mwColMapAtoB (headers_a headers_b : List (String × ℕ)) : List (ℕ × ℕ) :=
  headers_a.foldl
    (fun col_map (header, col_a) =>
      match dictGet headers_b header with
      | some col_b => dictInsert col_map col_a col_b
      | Option.none => col_map)
    []

/-- `extract_row_data` (local function of `_compare_with_smart_match`):
one row padded/truncated to `col_count` values. -/
def mwExtractRowData (sheet : SheetData) (row_idx : ℕ) : List PyVal :=
  (List.range sheet.col_count).map (fun col_idx =>
    match sheet.get_cell row_idx col_idx with
    | some c => c.value | Option.none => .none)

/-- `make_key` (local function of `_compare_with_smart_match` and of
`_compare_selection_smart`): composite key from `col1` and optionally
`col2`, stripped, joined by `"|"`, lower-cased under `ignore_case`.
The `col_map` parameter exists in the source but every call site passes
`None` for it. -/
def mwMakeKey (ignore_case : Bool) (row_data : List PyVal) (col1 : ℕ)
    (col2 : Option ℕ) (col_map : Option (List (ℕ × ℕ)) := Option.none) :
    Option String :=
  let actual_col1 := match col_map with
    | some m => (dictGet m col1).getD col1 | Option.none => col1
  let val1 := rowGetVal row_data actual_col1
  if val1 = .none ∨ pyStrip (pyStr val1) = "" then Option.none
  else
    let key := pyStrip (pyStr val1)
    let key := match col2 with
      | some c2 =>
          let actual_col2 := match col_map with
            | some m => (dictGet m c2).getD c2 | Option.none => c2
          let val2 := rowGetVal row_data actual_col2
          if val2 ≠ .none ∧ pyStrip (pyStr val2) ≠ "" then
            key ++ "|" ++ pyStrip (pyStr val2)
          else key
      | Option.none => key
    some (if ignore_case then pyLower key else key)

/-- Append to the row list of a key in the `rows_a`/`rows_b` dicts of
`_compare_with_smart_match` (`if k not in d: d[k] = []` followed by
`d[k].append(x)`). -/
def dictAppend {κ ν : Type} [DecidableEq κ] (m : List (κ × List ν)) (k : κ)
    (x : ν) : List (κ × List ν) :=
  if (m.map Prod.fst).contains k then
    m.map (fun p => if p.1 = k then (p.1, p.2 ++ [x]) else p)
  else m ++ [(k, [x])]

/-- The `rows_a` / `rows_b` construction of `_compare_with_smart_match`:
`key -> list[(row_index, row_values)]`, all rows with a truthy key
retained in encounter order (the header row is skipped). -/
def mwRowsStep (sheet : SheetData) (header_row : Option ℕ) (col1 : ℕ)
    (col2 : Option ℕ) (ignore_case : Bool)
    (rows : List (String × List (ℕ × List PyVal))) (row_idx : ℕ) :
    List (String × List (ℕ × List PyVal)) :=
  if header_row = some row_idx then rows
  else
    match mwMakeKey ignore_case (mwExtractRowData sheet row_idx) col1 col2 with
    | some k =>
        if k ≠ "" then dictAppend rows k (row_idx, mwExtractRowData sheet row_idx)
        else rows
    | Option.none => rows

/-- Fold of `mwRowsStep` over the sheet's row range. -/
def mwBuildRowsMap (sheet : SheetData) (header_row : Option ℕ) (col1 : ℕ)
    (col2 : Option ℕ) (ignore_case : Bool) :
    List (String × List (ℕ × List PyVal)) :=
  (List.range sheet.row_count).foldl
    (mwRowsStep sheet header_row col1 col2 ignore_case) []

/-- `dist = abs(row_idx_a - row_idx_b)` for the `i`-th row of `list_a`
and the `j`-th row of `list_b`. -/
def greedyDist (list_a list_b : List (ℕ × List PyVal)) (i j : ℕ) : ℕ :=
  Int.natAbs (((list_a.getD i (0, [])).1 : ℤ) - ((list_b.getD j (0, [])).1 : ℤ))

/-- The candidate-pair list of the greedy matcher: all `m × n` pairs
`(distance, i, j)` with `distance = |row_index_a - row_index_b|`,
generated in the nested-loop order (ascending `i`, then `j`,
`enumerate` indices). -/
def greedyPairs (list_a list_b : List (ℕ × List PyVal)) : List (ℕ × ℕ × ℕ) :=
  (List.range list_a.length).flatMap (fun i =>
    (List.range list_b.length).map (fun j =>
      (greedyDist list_a list_b i j, i, j)))

/-- `pairs.sort(key=lambda x: x[0])`: Python's sort is stable, so the
model is the (stable) insertion sort by the distance component. -/
def sortGreedyPairs (pairs : List (ℕ × ℕ × ℕ)) : List (ℕ × ℕ × ℕ) :=
  pairs.insertionSort (fun p q => p.1 ≤ q.1)

/-- One step of the greedy selection loop: accept the pair iff neither
of its row indices was consumed. -/
def greedyStep (st : List (ℕ × ℕ) × List ℕ × List ℕ) (p : ℕ × ℕ × ℕ) :
    List (ℕ × ℕ) × List ℕ × List ℕ :=
  if ¬st.2.1.contains p.2.1 ∧ ¬st.2.2.contains p.2.2 then
    (st.1 ++ [(p.2.1, p.2.2)], st.2.1 ++ [p.2.1], st.2.2 ++ [p.2.2])
  else st

/-- The greedy selection loop: returns `(matches, used_a, used_b)` as
index lists. -/
def greedySelect (pairs : List (ℕ × ℕ × ℕ)) :
    List (ℕ × ℕ) × List ℕ × List ℕ :=
  pairs.foldl greedyStep ([], [], [])

/-- Cell comparison of one matched row pair in the key branch of
`_compare_with_smart_match` (column-mapped when `col_map` is truthy,
positional otherwise; the four key columns are skipped). -/
def mwMatchedRowDiffs (sheet_name : String) (col_map : List (ℕ × ℕ))
    (key1a : ℕ) (key2a : Option ℕ) (key1b : Option ℕ) (key2b : Option ℕ)
    (options : CompareOptions) (ra rb : ℕ × List PyVal) : List DiffResult :=
  let (row_idx_a, row_data_a) := ra
  let (row_idx_b, row_data_b) := rb
  if col_map ≠ [] then
    col_map.filterMap (fun (col_a, col_b) =>
      if col_a = key1a ∨ some col_a = key2a ∨ some col_b = key1b ∨
          some col_b = key2b then Option.none
      else
        let val_a := rowGetVal row_data_a col_a
        let val_b := rowGetVal row_data_b col_b
        if values_differ val_a val_b options then
          some { sheet := sheet_name, row := row_idx_a, col := col_a,
                 diff_type := get_diff_type val_a val_b,
                 old_value := val_a, new_value := val_b,
                 row_b := some row_idx_b, col_b := some col_b }
        else Option.none)
  else
    (List.range (max row_data_a.length row_data_b.length)).filterMap
      (fun col_idx =>
        if col_idx = key1a ∨ some col_idx = key2a ∨ some col_idx = key1b ∨
            some col_idx = key2b then Option.none
        else
          let val_a := rowGetVal row_data_a col_idx
          let val_b := rowGetVal row_data_b col_idx
          if values_differ val_a val_b options then
            some { sheet := sheet_name, row := row_idx_a, col := col_idx,
                   diff_type := get_diff_type val_a val_b,
                   old_value := val_a, new_value := val_b,
                   row_b := some row_idx_b, col_b := some col_idx }
          else Option.none)

/-- The whole-row records for rows left unmatched by the greedy matcher
in `_compare_with_smart_match`: Deleted for A-side rows (no B position),
Added for B-side rows (B position recorded). -/
def mwUnmatchedRowDiffs (sheet_name : String) (is_added : Bool)
    (row_idx : ℕ) (row_data : List PyVal) : List DiffResult :=
  row_data.enum.filterMap (fun (col_idx, val) =>
    if val ≠ .none ∧ pyStrip (pyStr val) ≠ "" then
      some (if is_added then
        { sheet := sheet_name, row := row_idx, col := col_idx,
          diff_type := DiffType.added, new_value := val,
          row_b := some row_idx, col_b := some col_idx }
      else
        { sheet := sheet_name, row := row_idx, col := col_idx,
          diff_type := DiffType.deleted, old_value := val })
    else Option.none)

/-- The body of the `for key in all_keys` loop of
`_compare_with_smart_match`: greedy-match the key's two row lists, then
compare matched pairs and emit whole-row records for unmatched rows. -/
def mwProcessKey (sheet_name : String) (col_map : List (ℕ × ℕ))
    (key1a : ℕ) (key2a : Option ℕ) (key1b : Option ℕ) (key2b : Option ℕ)
    (options : CompareOptions) (list_a list_b : List (ℕ × List PyVal)) :
    List DiffResult :=
  let (matchIdx, used_a, used_b) := greedySelect (sortGreedyPairs (greedyPairs list_a list_b))
  let matched := matchIdx.flatMap (fun (i, j) =>
    mwMatchedRowDiffs sheet_name col_map key1a key2a key1b key2b options
      (list_a.getD i (0, [])) (list_b.getD j (0, [])))
  let unmatchedA := list_a.enum.flatMap (fun (i, r) =>
    if ¬used_a.contains i then mwUnmatchedRowDiffs sheet_name false r.1 r.2 else [])
  let unmatchedB := list_b.enum.flatMap (fun (j, r) =>
    if ¬used_b.contains j then mwUnmatchedRowDiffs sheet_name true r.1 r.2 else [])
  matched ++ unmatchedA ++ unmatchedB

/-- The per-sheet body of `_compare_with_smart_match`.  The `for key in
all_keys` loop iterates a Python `set`, whose order is unspecified: the
enumeration is the explicit parameter `keyOrder` (callers/theorems relate
it to the union of the two key sets).  `key1b` defaults to `key1a` at the
configuration layer (`get_key_column_config`). -/
def mwSmartMatchSheet (keyOrder : List String) (sheet_name : String)
    (sheet_a sheet_b : SheetData) (key1a : Option ℕ) (key2a : Option ℕ)
    (key1b : Option ℕ) (key2b : Option ℕ) (header_row : Option ℕ)
    (options : CompareOptions) : List DiffResult :=
  let col_map := match header_row with
    | some hr => mwColMapAtoB (mwBuildHeaders sheet_a hr) (mwBuildHeaders sheet_b hr)
    | Option.none => []
  match key1a with
  | some k1a =>
      let rows_a := mwBuildRowsMap sheet_a header_row k1a key2a options.ignore_case
      let rows_b := mwBuildRowsMap sheet_b header_row ((key1b).getD k1a) key2b
        options.ignore_case
      keyOrder.flatMap (fun key =>
        mwProcessKey sheet_name col_map k1a key2a key1b key2b options
          ((dictGet rows_a key).getD []) ((dictGet rows_b key).getD []))
  | Option.none =>
      let max_rows := max sheet_a.row_count sheet_b.row_count
      (List.range max_rows).flatMap (fun row_idx =>
        if header_row = some row_idx then []
        else
          let row_data_a := if row_idx < sheet_a.row_count then
              mwExtractRowData sheet_a row_idx else []
          let row_data_b := if row_idx < sheet_b.row_count then
              mwExtractRowData sheet_b row_idx else []
          if col_map ≠ [] then
            col_map.filterMap (fun (col_a, col_b) =>
              let val_a := rowGetVal row_data_a col_a
              let val_b := rowGetVal row_data_b col_b
              if values_differ val_a val_b options then
                some { sheet := sheet_name, row := row_idx, col := col_a,
                       diff_type := get_diff_type val_a val_b,
                       old_value := val_a, new_value := val_b,
                       row_b := some row_idx, col_b := some col_b }
              else Option.none)
          else [])

/-! ## Selection-scoped compare (`_compare_selection` and helpers) -/

/-- The selection tuple `(min_row, min_col, max_row, max_col)` produced
by `DiffView.get_current_selections` (0-indexed, inclusive). -/
structure SelRect where
  min_row : ℕ
  min_col : ℕ
  max_row : ℕ
  max_col : ℕ
deriving DecidableEq, Repr

/-- `range_a[2] - range_a[0] + 1` (the selections are normalized with
`max_row >= min_row`). -/
def SelRect.rowSpan (r : SelRect) : ℕ := r.max_row - r.min_row + 1

/-- `range_a[3] - range_a[1] + 1`. -/
def SelRect.colSpan (r : SelRect) : ℕ := r.max_col - r.min_col + 1

/-- `extract_range_data` (local function of `_compare_selection_smart`):
rows of the rectangle together with their absolute row indices. -/
def selExtractRangeData (sheet : SheetData) (rng : SelRect) :
    List (ℕ × List PyVal) :=
  (List.range' rng.min_row rng.rowSpan).map (fun row_idx =>
    (row_idx, (List.range' rng.min_col rng.colSpan).map (fun col_idx =>
      match sheet.get_cell row_idx col_idx with
      | some c => c.value | Option.none => .none)))

/-- One side of the external-header maps of `_compare_selection_smart`
(read from the full sheet at the absolute header row, keyed by
`str(val).strip().lower()`, value = column *offset* within the
selection). -/
def selExternalHeaders (sheet : SheetData) (external_header_row : ℕ)
    (rng : SelRect) (colSpanA : ℕ) : List (String × ℕ) :=
  (List.range colSpanA).foldl
    (fun headers col_offset =>
      let val := match sheet.get_cell external_header_row (rng.min_col + col_offset) with
        | some c => c.value | Option.none => .none
      if val ≠ .none ∧ pyStrip (pyStr val) ≠ "" then
        dictInsert headers (pyLower (pyStrip (pyStr val))) col_offset
      else headers)
    []

/-- One side of the in-selection header maps of
`_compare_selection_smart` (keyed by `str(val).strip().lower()`). -/
def selRowHeaders (header_row_vals : List PyVal) : List (String × ℕ) :=
  header_row_vals.enum.foldl
    (fun headers (col_offset, val) =>
      if val ≠ .none ∧ pyStrip (pyStr val) ≠ "" then
        dictInsert headers (pyLower (pyStrip (pyStr val))) col_offset
      else headers)
    []

/-- Column map and data-start offset of `_compare_selection_smart`:
external header (absolute row, offset 0), else in-selection header row
when within both data extents (offset `header_row + 1`), else empty. -/
def selColMapAndStart (sheet_a sheet_b : SheetData) (range_a range_b : SelRect)
    (data_a data_b : List (ℕ × List PyVal)) (header_row : Option ℕ)
    (external_header_row : Option ℕ) : List (ℕ × ℕ) × ℕ :=
  match external_header_row with
  | some ext =>
      let headers_a := selExternalHeaders sheet_a ext range_a range_a.colSpan
      let headers_b := selExternalHeaders sheet_b ext range_b range_a.colSpan
      (mwColMapAtoB headers_a headers_b, 0)
  | Option.none =>
      match header_row with
      | some hr =>
          if hr < data_a.length ∧ hr < data_b.length then
            let headers_a := selRowHeaders (((data_a.get? hr).map Prod.snd).getD [])
            let headers_b := selRowHeaders (((data_b.get? hr).map Prod.snd).getD [])
            (mwColMapAtoB headers_a headers_b, hr + 1)
          else ([], 0)
      | Option.none => ([], 0)

/-- The `rows_a`/`rows_b` dicts of the key branch of
`_compare_selection_smart` (over the extracted selection rows, absolute
row indices). -/
def selBuildRowsMap (data : List (ℕ × List PyVal)) (data_start_offset : ℕ)
    (key_col1 : ℕ) (key_col2 : Option ℕ) (ignore_case : Bool) :
    List (String × List (ℕ × List PyVal)) :=
  (data.drop data_start_offset).foldl
    (fun rows (row_idx, row_data) =>
      match mwMakeKey ignore_case row_data key_col1 key_col2 with
      | some k => if k ≠ "" then dictAppend rows k (row_idx, row_data) else rows
      | Option.none => rows)
    []

/-- Cell comparison of one matched row pair in the key branch of
`_compare_selection_smart` (only the A-side key columns are skipped in
the column-mapped sub-branch; both produce absolute coordinates via the
range origins). -/
def selMatchedRowDiffs (sheet_name : String) (range_a range_b : SelRect)
    (col_map : List (ℕ × ℕ)) (key_col1 : ℕ) (key_col2 : Option ℕ)
    (options : CompareOptions) (ra rb : ℕ × List PyVal) : List DiffResult :=
  let (row_idx_a, row_data_a) := ra
  let (row_idx_b, row_data_b) := rb
  if col_map ≠ [] then
    col_map.filterMap (fun (col_a, col_b) =>
      if col_a = key_col1 ∨ some col_a = key_col2 then Option.none
      else
        let val_a := rowGetVal row_data_a col_a
        let val_b := rowGetVal row_data_b col_b
        if values_differ val_a val_b options then
          some { sheet := sheet_name, row := row_idx_a, col := range_a.min_col + col_a,
                 diff_type := get_diff_type val_a val_b,
                 old_value := val_a, new_value := val_b,
                 row_b := some row_idx_b, col_b := some (range_b.min_col + col_b) }
        else Option.none)
  else
    (List.range (max row_data_a.length row_data_b.length)).filterMap
      (fun col_offset =>
        if col_offset = key_col1 ∨ some col_offset = key_col2 then Option.none
        else
          let val_a := rowGetVal row_data_a col_offset
          let val_b := rowGetVal row_data_b col_offset
          if values_differ val_a val_b options then
            some { sheet := sheet_name, row := row_idx_a,
                   col := range_a.min_col + col_offset,
                   diff_type := get_diff_type val_a val_b,
                   old_value := val_a, new_value := val_b,
                   row_b := some row_idx_b, col_b := some (range_b.min_col + col_offset) }
          else Option.none)

/-- Whole-row records of the key branch of `_compare_selection_smart`
for unmatched rows (Deleted with A-side absolute coordinates, Added with
B-side absolute coordinates and `row_b`/`col_b`). -/
def selUnmatchedRowDiffs (sheet_name : String) (min_col : ℕ) (is_added : Bool)
    (row_idx : ℕ) (row_data : List PyVal) : List DiffResult :=
  row_data.enum.filterMap (fun (col_offset, val) =>
    if val ≠ .none ∧ pyStrip (pyStr val) ≠ "" then
      some (if is_added then
        { sheet := sheet_name, row := row_idx, col := min_col + col_offset,
          diff_type := DiffType.added, new_value := val,
          row_b := some row_idx, col_b := some (min_col + col_offset) }
      else
        { sheet := sheet_name, row := row_idx, col := min_col + col_offset,
          diff_type := DiffType.deleted, old_value := val })
    else Option.none)

/-- The body of the `for key in all_keys` loop of
`_compare_selection_smart`. -/
def selProcessKey (sheet_name : String) (range_a range_b : SelRect)
    (col_map : List (ℕ × ℕ)) (key_col1 : ℕ) (key_col2 : Option ℕ)
    (options : CompareOptions) (list_a list_b : List (ℕ × List PyVal)) :
    List DiffResult :=
  let (matchIdx, used_a, used_b) := greedySelect (sortGreedyPairs (greedyPairs list_a list_b))
  let matched := matchIdx.flatMap (fun (i, j) =>
    selMatchedRowDiffs sheet_name range_a range_b col_map key_col1 key_col2 options
      (list_a.getD i (0, [])) (list_b.getD j (0, [])))
  let unmatchedA := list_a.enum.flatMap (fun (i, r) =>
    if ¬used_a.contains i then
      selUnmatchedRowDiffs sheet_name range_a.min_col false r.1 r.2 else [])
  let unmatchedB := list_b.enum.flatMap (fun (j, r) =>
    if ¬used_b.contains j then
      selUnmatchedRowDiffs sheet_name range_b.min_col true r.1 r.2 else [])
  matched ++ unmatchedA ++ unmatchedB

/-- `MainWindow._compare_selection_smart`.  The `for key in all_keys`
loop iterates a Python `set`; its enumeration is the explicit parameter
`keyOrder`. -/
def compareSelectionSmart (keyOrder : List String) (sheet_name : String)
    (sheet_a sheet_b : SheetData) (range_a range_b : SelRect)
    (key_col1 : Option ℕ) (key_col2 : Option ℕ) (header_row : Option ℕ)
    (options : CompareOptions) (external_header_row : Option ℕ) :
    List DiffResult :=
  let data_a := selExtractRangeData sheet_a range_a
  let data_b := selExtractRangeData sheet_b range_b
  let (col_map, data_start_offset) :=
    selColMapAndStart sheet_a sheet_b range_a range_b data_a data_b
      header_row external_header_row
  match key_col1 with
  | some k1 =>
      let rows_a := selBuildRowsMap data_a data_start_offset k1 key_col2
        options.ignore_case
      let rows_b := selBuildRowsMap data_b data_start_offset k1 key_col2
        options.ignore_case
      keyOrder.flatMap (fun key =>
        selProcessKey sheet_name range_a range_b col_map k1 key_col2 options
          ((dictGet rows_a key).getD []) ((dictGet rows_b key).getD []))
  | Option.none =>
      (List.range' data_start_offset (max data_a.length data_b.length
          - data_start_offset)).flatMap (fun i =>
        let (row_idx_a, row_data_a) := (data_a.get? i).getD (range_a.min_row + i, [])
        let (row_idx_b, row_data_b) := (data_b.get? i).getD (range_b.min_row + i, [])
        if col_map ≠ [] then
          col_map.filterMap (fun (col_a, col_b) =>
            let val_a := rowGetVal row_data_a col_a
            let val_b := rowGetVal row_data_b col_b
            if values_differ val_a val_b options then
              some { sheet := sheet_name, row := row_idx_a,
                     col := range_a.min_col + col_a,
                     diff_type := get_diff_type val_a val_b,
                     old_value := val_a, new_value := val_b,
                     row_b := some row_idx_b, col_b := some (range_b.min_col + col_b) }
            else Option.none)
        else [])

/-- `MainWindow._compare_by_position` (selection positional compare):
`row_b`/`col_b` are recorded on every emitted record, even when the two
rectangles coincide. -/
def mwCompareByPosition (sheet_name : String) (sheet_a sheet_b : SheetData)
    (range_a range_b : SelRect) (options : CompareOptions) : List DiffResult :=
  (List.range range_a.rowSpan).flatMap (fun row_offset =>
    (List.range range_a.colSpan).filterMap (fun col_offset =>
      let row_a := range_a.min_row + row_offset
      let col_a := range_a.min_col + col_offset
      let row_b := range_b.min_row + row_offset
      let col_b := range_b.min_col + col_offset
      let val_a := match sheet_a.get_cell row_a col_a with
        | some c => c.value | Option.none => .none
      let val_b := match sheet_b.get_cell row_b col_b with
        | some c => c.value | Option.none => .none
      if values_differ val_a val_b options then
        some { sheet := sheet_name, row := row_a, col := col_a,
               diff_type := get_diff_type val_a val_b,
               old_value := val_a, new_value := val_b,
               row_b := some row_b, col_b := some col_b }
      else Option.none))

/-- The rejections of `_compare_selection` (each is a
`QMessageBox.warning` followed by `return` — the compare is aborted with
no diff records; the spec's error taxonomy calls these
`ConfigurationError`). -/
inductive SelectionError where
  | colSpanMismatch
  | keyColumnOutsideSelection
  | rowSpanMismatch
  | sheetMissing
deriving DecidableEq, Repr

/-- `MainWindow._compare_selection`: validation and dispatch.  Checks run
in source order *before* any matching: unequal column spans, then the key
column outside the selection, then (with no key column) unequal row
spans.  Key/header configuration comes from the config panel as absolute
indices; the key columns are converted to selection-relative offsets
(`key_col1_a_abs - range_a.min_col`, as an integer, negative meaning
out-of-selection on the left). -/
def compareSelection (keyOrder : List String) (sheet_name : String)
    (sheet_a_opt sheet_b_opt : Option SheetData) (range_a range_b : SelRect)
    (key_col1_a_abs key_col2_a_abs : Option ℤ) (header_row_abs : Option ℕ)
    (options : CompareOptions) : Except SelectionError (List DiffResult) :=
  let cols_a := range_a.colSpan
  let cols_b := range_b.colSpan
  if cols_a ≠ cols_b then .error .colSpanMismatch
  else
    let key_col1 : Option ℤ := key_col1_a_abs.map (fun k => k - range_a.min_col)
    let key_col2 : Option ℤ := key_col2_a_abs.map (fun k => k - range_a.min_col)
    let (header_row, use_external_header) : Option ℕ × Bool :=
      match header_row_abs with
      | some h =>
          if h < range_a.min_row ∨ range_a.max_row < h then (Option.none, true)
          else (some (h - range_a.min_row), false)
      | Option.none => (Option.none, false)
    match key_col1 with
    | some k1 =>
        if k1 < 0 ∨ (cols_a : ℤ) ≤ k1 then .error .keyColumnOutsideSelection
        else
          match sheet_a_opt, sheet_b_opt with
          | some sheet_a, some sheet_b =>
              .ok (compareSelectionSmart keyOrder sheet_name sheet_a sheet_b
                range_a range_b (some k1.toNat) (key_col2.map Int.toNat)
                header_row options
                (if use_external_header then header_row_abs else Option.none))
          | _, _ => .error .sheetMissing
    | Option.none =>
        if range_a.rowSpan ≠ range_b.rowSpan then .error .rowSpanMismatch
        else
          match sheet_a_opt, sheet_b_opt with
          | some sheet_a, some sheet_b =>
              if header_row ≠ Option.none ∨ use_external_header then
                .ok (compareSelectionSmart keyOrder sheet_name sheet_a sheet_b
                  range_a range_b Option.none (key_col2.map Int.toNat)
                  header_row options
                  (if use_external_header then header_row_abs else Option.none))
              else
                .ok (mwCompareByPosition sheet_name sheet_a sheet_b
                  range_a range_b options)
          | _, _ => .error .sheetMissing

/-! ## Spec-side rule definitions (for refinement statements) -/

/-- The cell-diff classification as the spec words it: Added exactly when
the A-side is empty and the B-side non-empty, Deleted exactly in the
reverse case, Modified otherwise. -/
def specCellKind (emptyA emptyB : Bool) : DiffType :=
  if emptyA ∧ ¬emptyB then .added
  else if ¬emptyA ∧ emptyB then .deleted
  else .modified

/-! ## Claim C1 -/

/-- Concrete sheets for the C1/C6 counterexamples: A holds `None` cells,
B holds `""` and the number `0`. -/
def c1SheetA : SheetData :=
  { name := "S", rows := [[{ value := .none }, { value := .none }]],
    row_count := 1, col_count := 2 }

/-- B-side sheet of the C1 counterexample. -/
def c1SheetB : SheetData :=
  { name := "S", rows := [[{ value := .str "" }, { value := .num 0 }]],
    row_count := 1, col_count := 2 }

/-- The 1×2 selection rectangle used by the C1 counterexample. -/
def c1Rect : SelRect := { min_row := 0, min_col := 0, max_row := 0, max_col := 1 }

/-- C1 counterexample: in the selection/positional handler path
(`_compare_by_position` of `main_window.py`, classification via
`_values_differ` / `_get_diff_type`), the pair `(None, "")` — both empty
— produces a Modified record (the claim says no record), and the pair
`(None, 0)` — A-side empty, B-side non-empty — is classified Modified
(the claim says Added). -/
theorem C1_counterexample :
    mwCompareByPosition "S" c1SheetA c1SheetB c1Rect c1Rect {} =
      [{ sheet := "S", row := 0, col := 0, diff_type := .modified,
         old_value := .none, new_value := .str "",
         row_b := some 0, col_b := some 0 },
       { sheet := "S", row := 0, col := 1, diff_type := .modified,
         old_value := .none, new_value := .num 0,
         row_b := some 0, col_b := some 1 }] ∧
    pyIsEmpty (.str "") = true ∧ pyIsEmpty (.num 0) = false ∧
    specCellKind (pyIsEmpty .none) (pyIsEmpty (.num 0)) = .added := by
  refine ⟨?_, rfl, rfl, rfl⟩
  rfl

/-- C1 (amended).  (1) In `CompareService._compare_cells` the rule holds
as the claim states it: both sides empty after normalization produce no
record, and an unequal (not-both-empty) pair is classified exactly per
`specCellKind`.  (2) In the `main_window` handlers the both-empty guard
of `_values_differ` is active only when `ignore_empty_rows` is set, and
(3) `_get_diff_type` classifies by truthiness of the raw values, which
agrees with the spec rule exactly when truthiness coincides with
non-emptiness on both operands. -/
theorem C1_amended :
    (∀ (name : String) (row col : ℕ) (ca cb : Option CellData)
        (opts : CompareOptions),
      pyIsEmpty (normalizePair opts (optCellVal ca) (optCellVal cb)).1 →
      pyIsEmpty (normalizePair opts (optCellVal ca) (optCellVal cb)).2 →
      compareCells name row col ca cb opts = Option.none) ∧
    (∀ (name : String) (row col : ℕ) (ca cb : Option CellData)
        (opts : CompareOptions),
      ¬(pyIsEmpty (normalizePair opts (optCellVal ca) (optCellVal cb)).1 ∧
        pyIsEmpty (normalizePair opts (optCellVal ca) (optCellVal cb)).2) →
      (normalizePair opts (optCellVal ca) (optCellVal cb)).1 ≠
        (normalizePair opts (optCellVal ca) (optCellVal cb)).2 →
      ∃ d, compareCells name row col ca cb opts = some d ∧
        d.diff_type =
          specCellKind (pyIsEmpty (normalizePair opts (optCellVal ca) (optCellVal cb)).1)
            (pyIsEmpty (normalizePair opts (optCellVal ca) (optCellVal cb)).2)) ∧
    (∀ (va vb : PyVal) (opts : CompareOptions),
      opts.ignore_empty_rows = false →
      (values_differ va vb opts = true ↔
        smartNorm opts.ignore_case opts.ignore_whitespace va ≠
          smartNorm opts.ignore_case opts.ignore_whitespace vb)) ∧
    (∀ (va vb : PyVal) (opts : CompareOptions),
      opts.ignore_empty_rows = true →
      pyIsEmpty (smartNorm opts.ignore_case opts.ignore_whitespace va) →
      pyIsEmpty (smartNorm opts.ignore_case opts.ignore_whitespace vb) →
      values_differ va vb opts = false) ∧
    (∀ va vb : PyVal,
      pyTruthy va = !pyIsEmpty va → pyTruthy vb = !pyIsEmpty vb →
      get_diff_type va vb = specCellKind (pyIsEmpty va) (pyIsEmpty vb)) := by
  refine ⟨?_, ?_, ?_, ?_, ?_⟩
  · intro name row col ca cb opts h1 h2
    simp only [compareCells]
    rw [if_pos ⟨h1, h2⟩]
  · intro name row col ca cb opts hne hv
    simp only [compareCells]
    rw [if_neg (by
      intro h
      exact hne ⟨h.1, h.2⟩)]
    rw [if_neg hv]
    exact ⟨_, rfl, by
      simp only [specCellKind]⟩
  · intro va vb opts h
    simp only [values_differ, h]
    simp
  · intro va vb opts h h1 h2
    simp only [values_differ, h]
    simp [h1, h2]
  · intro va vb h1 h2
    simp only [get_diff_type, specCellKind]
    rw [h1, h2]
    cases hva : pyIsEmpty va <;> cases hvb : pyIsEmpty vb <;> simp

/-- Closed instantiation of `C1_amended`: the exact-path rule at the
concrete pair `(None, "x")` (a record is produced) and the truthiness
bridge at `("x", None)` (Deleted). -/
theorem C1_witness :
    compareCells "S" 0 0 Option.none (some { value := .str "x" }) {} ≠
      Option.none ∧
    get_diff_type (.str "x") .none =
      specCellKind (pyIsEmpty (.str "x")) (pyIsEmpty .none) := by
  constructor
  · rcases C1_amended.2.1 "S" 0 0 Option.none (some { value := .str "x" }) {}
      (by decide) (by decide) with ⟨d, hd, _⟩
    rw [hd]
    exact Option.noConfusion
  · exact C1_amended.2.2.2.2 (.str "x") .none (by decide) (by decide)

/-! ## Claim C2 — greedy duplicate-key matching -/

open List

/-- Strict lexicographic order on the `(i, j)` index components of a
candidate pair: the generation order of the nested candidate loops. -/
def pairIdxLt (p q : ℕ × ℕ × ℕ) : Prop :=
  p.2.1 < q.2.1 ∨ (p.2.1 = q.2.1 ∧ p.2.2 < q.2.2)

lemma greedyPairs_pairwise (la lb : List (ℕ × List PyVal)) :
    (greedyPairs la lb).Pairwise pairIdxLt := by
  unfold greedyPairs
  rw [List.pairwise_flatMap]
  constructor
  · intro i _
    rw [List.pairwise_map]
    exact (List.pairwise_lt_range _).imp (fun h => Or.inr ⟨rfl, h⟩)
  · refine (List.pairwise_lt_range la.length).imp ?_
    intro a b hab x hx y hy
    simp only [List.mem_map, List.mem_range] at hx hy
    obtain ⟨j1, _, rfl⟩ := hx
    obtain ⟨j2, _, rfl⟩ := hy
    exact Or.inl hab

lemma pairwise_pair_sublist {α : Type} {R : α → α → Prop}
    (hasymm : ∀ a b, R a b → R b a → False) :
    ∀ (l : List α), l.Pairwise R → ∀ p q, p ∈ l → q ∈ l → R p q → [p, q] <+ l := by
  intro l
  induction l with
  | nil => intro _ p q hp _ _; cases hp
  | cons x xs ih =>
    intro hl p q hp hq hpq
    rw [List.pairwise_cons] at hl
    rcases List.mem_cons.mp hp with rfl | hp'
    · rcases List.mem_cons.mp hq with rfl | hq'
      · exact absurd hpq (fun h => hasymm _ _ h h)
      · exact List.Sublist.cons₂ p (List.singleton_sublist.mpr hq')
    · rcases List.mem_cons.mp hq with rfl | hq'
      · exact absurd (hl.1 p hp') (fun h => hasymm _ _ hpq h)
      · exact List.Sublist.cons x (ih hl.2 p q hp' hq' hpq)

lemma pairIdxLt_asymm (p q : ℕ × ℕ × ℕ) : pairIdxLt p q → pairIdxLt q p → False := by
  rintro (h1 | ⟨e1, h1⟩) (h2 | ⟨e2, h2⟩) <;> omega

lemma greedyFold_inv (l : List (ℕ × ℕ × ℕ)) :
    ∀ st : List (ℕ × ℕ) × List ℕ × List ℕ,
      st.2.1 = st.1.map Prod.fst → st.2.2 = st.1.map Prod.snd →
      (l.foldl greedyStep st).2.1 = (l.foldl greedyStep st).1.map Prod.fst ∧
      (l.foldl greedyStep st).2.2 = (l.foldl greedyStep st).1.map Prod.snd := by
  induction l with
  | nil => intro st h1 h2; exact ⟨h1, h2⟩
  | cons p l ih =>
    intro st h1 h2
    rw [List.foldl_cons]
    apply ih <;> unfold greedyStep <;> split <;>
      simp [List.map_append, h1, h2]

lemma greedyFold_nodup (l : List (ℕ × ℕ × ℕ)) :
    ∀ st : List (ℕ × ℕ) × List ℕ × List ℕ,
      st.2.1.Nodup → st.2.2.Nodup →
      (l.foldl greedyStep st).2.1.Nodup ∧ (l.foldl greedyStep st).2.2.Nodup := by
  induction l with
  | nil => exact fun st h1 h2 => ⟨h1, h2⟩
  | cons p l ih =>
    intro st h1 h2
    rw [List.foldl_cons]
    apply ih <;> unfold greedyStep <;> split <;> rename_i hacc <;>
      first
        | assumption
        | (rw [List.nodup_append]
           refine ⟨by assumption, List.nodup_singleton _, ?_⟩
           rw [List.disjoint_singleton]
           first
             | exact fun hmem => hacc.1 (List.elem_iff.mpr hmem)
             | exact fun hmem => hacc.2 (List.elem_iff.mpr hmem))

lemma greedyFold_mono (l : List (ℕ × ℕ × ℕ)) :
    ∀ st : List (ℕ × ℕ) × List ℕ × List ℕ,
      (∀ x, x ∈ st.2.1 → x ∈ (l.foldl greedyStep st).2.1) ∧
      (∀ x, x ∈ st.2.2 → x ∈ (l.foldl greedyStep st).2.2) := by
  induction l with
  | nil => exact fun st => ⟨fun _ h => h, fun _ h => h⟩
  | cons p l ih =>
    intro st
    rw [List.foldl_cons]
    refine ⟨fun x hx => (ih _).1 x ?_, fun x hx => (ih _).2 x ?_⟩ <;>
      unfold greedyStep <;> split <;>
      simp [List.mem_append, hx]

lemma greedyFold_covers (l : List (ℕ × ℕ × ℕ)) :
    ∀ st : List (ℕ × ℕ) × List ℕ × List ℕ, ∀ p ∈ l,
      p.2.1 ∈ (l.foldl greedyStep st).2.1 ∨ p.2.2 ∈ (l.foldl greedyStep st).2.2 := by
  induction l with
  | nil => intro _ p hp; cases hp
  | cons q l ih =>
    intro st p hp
    rw [List.foldl_cons]
    rcases List.mem_cons.mp hp with rfl | hp'
    · by_cases hacc : ¬st.2.1.contains p.2.1 = true ∧ ¬st.2.2.contains p.2.2 = true
      · left
        apply (greedyFold_mono l _).1
        unfold greedyStep
        rw [if_pos hacc]
        simp
      · have h' : p.2.1 ∈ st.2.1 ∨ p.2.2 ∈ st.2.2 := by
          by_contra hcon
          push_neg at hcon
          exact hacc ⟨fun hc => hcon.1 (List.elem_iff.mp hc),
                      fun hc => hcon.2 (List.elem_iff.mp hc)⟩
        have hst : greedyStep st p = st := by
          unfold greedyStep
          rw [if_neg hacc]
        rw [hst]
        rcases h' with h' | h'
        · exact Or.inl ((greedyFold_mono l st).1 _ h')
        · exact Or.inr ((greedyFold_mono l st).2 _ h')
    · exact ih _ p hp'

lemma greedyFold_sub (l : List (ℕ × ℕ × ℕ)) :
    ∀ st : List (ℕ × ℕ) × List ℕ × List ℕ, ∀ x ∈ (l.foldl greedyStep st).1,
      x ∈ st.1 ∨ ∃ p ∈ l, x = (p.2.1, p.2.2) := by
  induction l with
  | nil => intro st x hx; exact Or.inl hx
  | cons q l ih =>
    intro st x hx
    rw [List.foldl_cons] at hx
    rcases ih _ x hx with h | ⟨p, hp, rfl⟩
    · unfold greedyStep at h
      split at h
      · rcases List.mem_append.mp h with h' | h'
        · exact Or.inl h'
        · exact Or.inr ⟨q, List.mem_cons_self _ _, List.mem_singleton.mp h'⟩
      · exact Or.inl h
    · exact Or.inr ⟨p, List.mem_cons_of_mem _ hp, rfl⟩

/-- A text cell, as the loader produces it. -/
def strCell (s : String) : CellData := { value := .str s, cell_type := .string }

/-- An empty cell. -/
def noneCell : CellData := {}

/-- A-side sheet of the spec's greedy-matching example: key `"x|1"`
(columns 0 and 1) at rows 0 and 5, empty keys elsewhere. -/
def c2SheetA : SheetData :=
  { name := "S",
    rows := [[strCell "x", strCell "1", strCell "a"],
             [noneCell, noneCell, noneCell],
             [noneCell, noneCell, noneCell],
             [noneCell, noneCell, noneCell],
             [noneCell, noneCell, noneCell],
             [strCell "x", strCell "1", strCell "b"]],
    row_count := 6, col_count := 3 }

/-- B-side sheet of the example: key `"x|1"` at row 1 only. -/
def c2SheetB : SheetData :=
  { name := "S",
    rows := [[noneCell, noneCell, noneCell],
             [strCell "x", strCell "1", strCell "a"]],
    row_count := 2, col_count := 3 }

/-- A's duplicate-row list for key `"x|1"`. -/
def c2ListA : List (ℕ × List PyVal) :=
  [(0, [.str "x", .str "1", .str "a"]), (5, [.str "x", .str "1", .str "b"])]

/-- B's row list for key `"x|1"`. -/
def c2ListB : List (ℕ × List PyVal) :=
  [(1, [.str "x", .str "1", .str "a"])]

/-- C2: the key matcher computes all `m × n` candidate pairs with
distance `|row_a - row_b|`, sorts them ascending by distance with the
stable tie-break that prefers the lower generation index `(i, j)`, and
greedily accepts a pair only if neither row is consumed (accepted A-rows
and B-rows are pairwise distinct; after the loop every candidate has a
consumed side; every match comes from the candidate list).  On the
spec's concrete instance — key `"x|1"` at A-rows {0,5} and B-row {1} —
the pair of rows (0,1) is accepted and row 5 yields one Deleted record
per non-empty cell, key columns included. -/
theorem C2_greedy_matching :
    (∀ la lb : List (ℕ × List PyVal),
      (greedyPairs la lb).length = la.length * lb.length) ∧
    (∀ (la lb : List (ℕ × List PyVal)) (p : ℕ × ℕ × ℕ),
      p ∈ greedyPairs la lb ↔ ∃ i < la.length, ∃ j < lb.length,
        p = (greedyDist la lb i j, i, j)) ∧
    (∀ pairs : List (ℕ × ℕ × ℕ), sortGreedyPairs pairs ~ pairs) ∧
    (∀ pairs : List (ℕ × ℕ × ℕ),
      (sortGreedyPairs pairs).Sorted (fun p q => p.1 ≤ q.1)) ∧
    (∀ (la lb : List (ℕ × List PyVal)) (p q : ℕ × ℕ × ℕ),
      p ∈ greedyPairs la lb → q ∈ greedyPairs la lb → p.1 ≤ q.1 → pairIdxLt p q →
      [p, q] <+ sortGreedyPairs (greedyPairs la lb)) ∧
    (∀ pairs : List (ℕ × ℕ × ℕ),
      ((greedySelect pairs).1.map Prod.fst).Nodup ∧
      ((greedySelect pairs).1.map Prod.snd).Nodup ∧
      (∀ p ∈ pairs, p.2.1 ∈ (greedySelect pairs).1.map Prod.fst ∨
        p.2.2 ∈ (greedySelect pairs).1.map Prod.snd) ∧
      (∀ x ∈ (greedySelect pairs).1, ∃ p ∈ pairs, x = (p.2.1, p.2.2))) ∧
    (dictGet (mwBuildRowsMap c2SheetA Option.none 0 (some 1) false) "x|1" =
        some c2ListA ∧
      dictGet (mwBuildRowsMap c2SheetB Option.none 0 (some 1) false) "x|1" =
        some c2ListB ∧
      greedySelect (sortGreedyPairs (greedyPairs c2ListA c2ListB)) =
        ([(0, 0)], [0], [0]) ∧
      mwSmartMatchSheet ["x|1"] "S" c2SheetA c2SheetB (some 0) (some 1) (some 0)
          (some 1) Option.none {} =
        [{ sheet := "S", row := 5, col := 0, diff_type := .deleted,
           old_value := .str "x" },
         { sheet := "S", row := 5, col := 1, diff_type := .deleted,
           old_value := .str "1" },
         { sheet := "S", row := 5, col := 2, diff_type := .deleted,
           old_value := .str "b" }]) := by
  refine ⟨?_, ?_, ?_, ?_, ?_, ?_, ?_, ?_, ?_, ?_⟩
  · intro la lb
    rw [greedyPairs, List.length_flatMap]
    simp [Function.comp_def, List.map_const', List.sum_replicate, smul_eq_mul,
      mul_comm]
  · intro la lb p
    simp only [greedyPairs, List.mem_flatMap, List.mem_map, List.mem_range]
    constructor
    · rintro ⟨i, hi, j, hj, rfl⟩
      exact ⟨i, hi, j, hj, rfl⟩
    · rintro ⟨i, hi, j, hj, rfl⟩
      exact ⟨i, hi, j, hj, rfl⟩
  · exact fun pairs => List.perm_insertionSort _ _
  · intro pairs
    haveI : IsTotal (ℕ × ℕ × ℕ) (fun p q => p.1 ≤ q.1) :=
      ⟨fun a b => Nat.le_total a.1 b.1⟩
    haveI : IsTrans (ℕ × ℕ × ℕ) (fun p q => p.1 ≤ q.1) :=
      ⟨fun _ _ _ hab hbc => Nat.le_trans hab hbc⟩
    exact List.sorted_insertionSort _ _
  · intro la lb p q hp hq hle hlt
    exact List.pair_sublist_insertionSort hle
      (pairwise_pair_sublist pairIdxLt_asymm _ (greedyPairs_pairwise la lb) p q hp hq hlt)
  · intro pairs
    unfold greedySelect
    have hinv := greedyFold_inv pairs ([], [], []) rfl rfl
    have hnd := greedyFold_nodup pairs ([], [], []) List.nodup_nil List.nodup_nil
    refine ⟨?_, ?_, ?_, ?_⟩
    · rw [← hinv.1]; exact hnd.1
    · rw [← hinv.2]; exact hnd.2
    · intro p hp
      have := greedyFold_covers pairs ([], [], []) p hp
      rw [hinv.1, hinv.2] at this
      exact this
    · intro x hx
      rcases greedyFold_sub pairs ([], [], []) x hx with h | h
      · cases h
      · exact h
  · rfl
  · rfl
  · rfl
  · rfl

/-- Closed instantiation of `C2_greedy_matching`: candidate count on the
concrete example; the stable tie-break on two equal-distance candidates
(A-rows 0 and 2 against B-row 1, both at distance 1, keep generation
order in the sorted list); coverage of the concrete candidate
`(1, 0, 0)` after the greedy loop. -/
theorem C2_witness :
    ((greedyPairs c2ListA c2ListB).length = c2ListA.length * c2ListB.length) ∧
    ([((1 : ℕ), (0 : ℕ), (0 : ℕ)), ((1 : ℕ), (1 : ℕ), (0 : ℕ))] <+
      sortGreedyPairs (greedyPairs [(0, []), (2, [])] [(1, [])])) ∧
    (((1 : ℕ), (0 : ℕ), (0 : ℕ)).2.1 ∈
        (greedySelect (greedyPairs c2ListA c2ListB)).1.map Prod.fst ∨
      ((1 : ℕ), (0 : ℕ), (0 : ℕ)).2.2 ∈
        (greedySelect (greedyPairs c2ListA c2ListB)).1.map Prod.snd) := by
  refine ⟨C2_greedy_matching.1 c2ListA c2ListB, ?_, ?_⟩
  · exact C2_greedy_matching.2.2.2.2.1 [(0, []), (2, [])] [(1, [])]
      (1, 0, 0) (1, 1, 0) (by decide) (by decide) (by decide)
      (Or.inl (by decide))
  · exact (C2_greedy_matching.2.2.2.2.2.1 (greedyPairs c2ListA c2ListB)).2.2.1
      (1, 0, 0) (by decide)

/-! ## Claim C3 — key iteration order -/

/-- A-side sheet for the key-order demonstration: keys `"b"` (row 0) and
`"a"` (row 1) in column 0. -/
def c3SheetA : SheetData :=
  { name := "S",
    rows := [[strCell "b", strCell "1"], [strCell "a", strCell "2"]],
    row_count := 2, col_count := 2 }

/-- Empty B-side sheet: every A key is unmatched, so the output order is
exactly the key iteration order. -/
def c3SheetB : SheetData := { name := "S", rows := [], row_count := 0, col_count := 0 }

/-- C3 (code bug, evaluated at the failing input): the `main_window` key
loop iterates a Python `set`, so its output depends on the enumeration
order — the two enumerations `["b", "a"]` and `["a", "b"]` are both
permutations of the key set yet give different diff lists.  The
service path (`_compare_by_key`) instead applies
`sorted(all_keys, key=str)`, which maps either enumeration to the same
sorted order, as the spec mandates for every path. -/
theorem C3_key_order_nondeterminism :
    (["b", "a"].Perm
      (dedupUnion (dictKeys (mwBuildRowsMap c3SheetA Option.none 0 Option.none false))
        (dictKeys (mwBuildRowsMap c3SheetB Option.none 0 Option.none false))) ∧
     ["a", "b"].Perm
      (dedupUnion (dictKeys (mwBuildRowsMap c3SheetA Option.none 0 Option.none false))
        (dictKeys (mwBuildRowsMap c3SheetB Option.none 0 Option.none false)))) ∧
    mwSmartMatchSheet ["b", "a"] "S" c3SheetA c3SheetB (some 0) Option.none
        (some 0) Option.none Option.none {} ≠
      mwSmartMatchSheet ["a", "b"] "S" c3SheetA c3SheetB (some 0) Option.none
        (some 0) Option.none Option.none {} ∧
    sortKeysByStr [.str "b", .str "a"] = [.str "a", .str "b"] ∧
    sortKeysByStr [.str "a", .str "b"] = [.str "a", .str "b"] ∧
    compare_by_key "S" [[.str "b", .str "1"], [.str "a", .str "2"]] []
        { use_key_column := true, key_column_index := 0 } 0 0 =
      [{ sheet := "S", row := 1, col := 0, diff_type := .deleted,
         old_value := .str "a" },
       { sheet := "S", row := 1, col := 1, diff_type := .deleted,
         old_value := .str "2" },
       { sheet := "S", row := 0, col := 0, diff_type := .deleted,
         old_value := .str "b" },
       { sheet := "S", row := 0, col := 1, diff_type := .deleted,
         old_value := .str "1" }] := by
  refine ⟨⟨by decide, by decide⟩, by decide, rfl, rfl, rfl⟩

/-! ## Claim C4 — header-key normalization -/

lemma dictInsert_keys_or {κ ν : Type} [DecidableEq κ] (m : List (κ × ν))
    (k k' : κ) (v : ν) :
    dictMem (dictInsert m k v) k' = true ↔ dictMem m k' = true ∨ k' = k := by
  unfold dictMem dictInsert
  split <;> rename_i hmem
  · rw [List.map_map]
    have : (Prod.fst ∘ fun p : κ × ν => if p.1 = k then (k, v) else p) = Prod.fst := by
      funext p
      simp only [Function.comp_apply]
      split <;> simp_all
    rw [this]
    constructor
    · exact Or.inl
    · rintro (h | rfl)
      · exact h
      · exact hmem
  · rw [List.map_append]
    simp only [List.map_cons, List.map_nil]
    constructor
    · intro h
      rcases List.mem_append.mp (List.elem_iff.mp h) with h' | h'
      · exact Or.inl (List.elem_iff.mpr h')
      · exact Or.inr (List.mem_singleton.mp h')
    · intro h
      apply List.elem_iff.mpr
      rw [List.mem_append]
      rcases h with h | rfl
      · exact Or.inl (List.elem_iff.mp h)
      · exact Or.inr (List.mem_singleton.mpr rfl)

lemma headerFold_mem_mono (sheet : SheetData) (hr : ℕ) (L : List ℕ) :
    ∀ (m : List (String × ℕ)) (k : String), dictMem m k = true →
      dictMem (L.foldl (mwHeaderStep sheet hr) m) k = true := by
  induction L with
  | nil => exact fun m k h => h
  | cons c L ih =>
    intro m k h
    rw [List.foldl_cons]
    apply ih
    unfold mwHeaderStep
    split
    · exact (dictInsert_keys_or m _ k _).mpr (Or.inl h)
    · exact h

lemma headerFold_mem (sheet : SheetData) (hr : ℕ) (L : List ℕ) :
    ∀ (m : List (String × ℕ)), ∀ col ∈ L,
      optCellVal (sheet.get_cell hr col) ≠ .none →
      pyStrip (pyStr (optCellVal (sheet.get_cell hr col))) ≠ "" →
      dictMem (L.foldl (mwHeaderStep sheet hr) m)
        (pyLower (pyStrip (pyStr (optCellVal (sheet.get_cell hr col))))) = true := by
  induction L with
  | nil => intro _ col hcol; cases hcol
  | cons c L ih =>
    intro m col hcol h1 h2
    rw [List.foldl_cons]
    rcases List.mem_cons.mp hcol with rfl | hcol'
    · apply headerFold_mem_mono
      unfold mwHeaderStep
      rw [if_pos ⟨h1, h2⟩]
      exact (dictInsert_keys_or m _ _ _).mpr (Or.inr rfl)
    · exact ih _ col hcol' h1 h2

/-- A-side header sheet of the C4 example (`"Name"`). -/
def c4SheetA : SheetData :=
  { name := "S", rows := [[strCell "Name"], [strCell "x"]],
    row_count := 2, col_count := 1 }

/-- B-side header sheet of the C4 example (`" name "`). -/
def c4SheetB : SheetData :=
  { name := "S", rows := [[strCell " name "], [strCell "y"]],
    row_count := 2, col_count := 1 }

/-- C4 counterexample: with `ignore_case = ignore_whitespace = false`,
`SmartCompareService`'s `build_header_map` keys `"Name"` and `" name "`
*differently* (only the option-conditional normalization is applied), the
computed common-header set is empty, and the end-to-end
`_compare_by_header` call finds no difference at all between the data
rows `"x"` and `"y"` — the two headers are not mapped to the same
correspondence entry. -/
theorem C4_counterexample :
    build_header_map {} [.str "Name"] = [("Name", 0)] ∧
    build_header_map {} [.str " name "] = [(" name ", 0)] ∧
    (dictKeys (build_header_map {} [.str "Name"])).filter
      (fun h => dictMem (build_header_map {} [.str " name "]) h) = [] ∧
    compare_by_header "S" [[.str "Name"], [.str "x"]] [[.str " name "], [.str "y"]]
      { use_header_row := true } 0 0 = .ok [] := by
  refine ⟨rfl, rfl, rfl, rfl⟩

/-- C4 (amended).  In the `main_window` handlers the header key is
`str(val).strip().lower()` irrespective of any option (the builders do
not consult the options at all): every header cell with a non-empty
trimmed string form is present under its case-folded trimmed key, and on
the claim's example `"Name"`/`" name "` yield a common correspondence
entry.  In `SmartCompareService._compare_by_header` the key is
normalized only per the options, so the same pair matches exactly when
both `ignore_case` and `ignore_whitespace` are set. -/
theorem C4_header_normalization :
    (∀ (sheet : SheetData) (hr col : ℕ), col < sheet.col_count →
      optCellVal (sheet.get_cell hr col) ≠ .none →
      pyStrip (pyStr (optCellVal (sheet.get_cell hr col))) ≠ "" →
      dictMem (mwBuildHeaders sheet hr)
        (pyLower (pyStrip (pyStr (optCellVal (sheet.get_cell hr col))))) = true) ∧
    mwColMapAtoB (mwBuildHeaders c4SheetA 0) (mwBuildHeaders c4SheetB 0) = [(0, 0)] ∧
    (build_header_map { ignore_case := true, ignore_whitespace := true }
        [.str "Name"] = [("name", 0)] ∧
     build_header_map { ignore_case := true, ignore_whitespace := true }
        [.str " name "] = [("name", 0)]) := by
  refine ⟨?_, rfl, rfl, rfl⟩
  intro sheet hr col hcol h1 h2
  exact headerFold_mem sheet hr (List.range sheet.col_count) [] col
    (List.mem_range.mpr hcol) h1 h2

/-- Closed instantiation of `C4_header_normalization` at the concrete
sheet `c4SheetA`, header row 0, column 0. -/
theorem C4_witness :
    dictMem (mwBuildHeaders c4SheetA 0)
      (pyLower (pyStrip (pyStr (optCellVal (c4SheetA.get_cell 0 0))))) = true := by
  exact C4_header_normalization.1 c4SheetA 0 0 (by decide) (by decide) (by decide)

/-! ## Claim C5 — key-map shape and duplicate retention -/

lemma find?_map_keyupd {κ ν : Type} [DecidableEq κ]
    (m : List (κ × List ν)) (k : κ) (x : ν) :
    (m.map (fun p => if p.1 = k then (p.1, p.2 ++ [x]) else p)).find?
        (fun p => p.1 = k) =
      ((m.find? (fun p => p.1 = k)).map (fun p => (p.1, p.2 ++ [x]))) := by
  induction m with
  | nil => rfl
  | cons p m ih =>
    by_cases hp : p.1 = k
    · simp [List.find?_cons, hp]
    · simp [List.find?_cons, hp, ih]

lemma find?_map_keyother {κ ν : Type} [DecidableEq κ]
    (m : List (κ × List ν)) (k k' : κ) (x : ν) (hk : k' ≠ k) :
    (m.map (fun p => if p.1 = k then (p.1, p.2 ++ [x]) else p)).find?
        (fun p => p.1 = k') =
      m.find? (fun p => p.1 = k') := by
  induction m with
  | nil => rfl
  | cons p m ih =>
    by_cases hp : p.1 = k
    · have h1 : ¬(p.1 = k') := fun h => hk (h.symm.trans hp)
      simp [List.find?_cons, hp, h1, ih, Ne.symm hk]
    · by_cases hp' : p.1 = k'
      · simp [List.find?_cons, hp, hp', hk]
      · simp [List.find?_cons, hp, hp', ih]

lemma dictAppend_get_self {κ ν : Type} [DecidableEq κ]
    (m : List (κ × List ν)) (k : κ) (x : ν) :
    (dictGet (dictAppend m k x) k).getD [] = (dictGet m k).getD [] ++ [x] := by
  unfold dictAppend dictGet
  split <;> rename_i hmem
  · rw [find?_map_keyupd]
    cases hf : m.find? (fun p => p.1 = k) with
    | none =>
        exfalso
        have : k ∈ m.map Prod.fst := List.elem_iff.mp hmem
        rcases List.mem_map.mp this with ⟨q, hq, rfl⟩
        have := List.find?_eq_none.mp hf q hq
        simp at this
    | some q => simp
  · rw [List.find?_append]
    cases hf : m.find? (fun p => p.1 = k) with
    | none => simp [List.find?_cons]
    | some q =>
        exfalso
        have hq := List.find?_some hf
        have hqm : q.1 ∈ m.map Prod.fst :=
          List.mem_map.mpr ⟨q, List.mem_of_find?_eq_some hf, rfl⟩
        simp only [decide_eq_true_eq] at hq
        exact absurd (List.elem_iff.mpr (hq ▸ hqm)) (by simpa using hmem)

lemma dictAppend_get_other {κ ν : Type} [DecidableEq κ]
    (m : List (κ × List ν)) (k k' : κ) (x : ν) (hk : k' ≠ k) :
    dictGet (dictAppend m k x) k' = dictGet m k' := by
  unfold dictAppend dictGet
  split <;> rename_i hmem
  · rw [find?_map_keyother m k k' x hk]
  · rw [List.find?_append]
    cases hf : m.find? (fun p => p.1 = k') with
    | none => simp [List.find?_cons, Ne.symm hk]
    | some q => simp

lemma rowsStep_mem_mono (sheet : SheetData) (header_row : Option ℕ) (col1 : ℕ)
    (col2 : Option ℕ) (ic : Bool) (m : List (String × List (ℕ × List PyVal)))
    (r : ℕ) (k : String) (y : ℕ × List PyVal) (hy : y ∈ (dictGet m k).getD []) :
    y ∈ (dictGet (mwRowsStep sheet header_row col1 col2 ic m r) k).getD [] := by
  unfold mwRowsStep
  split
  · exact hy
  · cases hmk : mwMakeKey ic (mwExtractRowData sheet r) col1 col2 with
    | none => exact hy
    | some k' =>
        simp only
        split
        · by_cases hk : k = k'
          · subst hk
            rw [dictAppend_get_self]
            exact List.mem_append_left _ hy
          · rw [dictAppend_get_other _ _ _ _ (fun h => hk h)]
            exact hy
        · exact hy

lemma rowsFold_mem_mono (sheet : SheetData) (header_row : Option ℕ) (col1 : ℕ)
    (col2 : Option ℕ) (ic : Bool) (L : List ℕ) :
    ∀ (m : List (String × List (ℕ × List PyVal))) (k : String)
      (y : ℕ × List PyVal), y ∈ (dictGet m k).getD [] →
      y ∈ (dictGet (L.foldl (mwRowsStep sheet header_row col1 col2 ic) m) k).getD [] := by
  induction L with
  | nil => exact fun m k y h => h
  | cons r L ih =>
    intro m k y h
    rw [List.foldl_cons]
    exact ih _ k y (rowsStep_mem_mono sheet header_row col1 col2 ic m r k y h)

lemma rowsFold_mem (sheet : SheetData) (header_row : Option ℕ) (col1 : ℕ)
    (col2 : Option ℕ) (ic : Bool) (L : List ℕ) :
    ∀ (m : List (String × List (ℕ × List PyVal))), ∀ r ∈ L, ∀ (key : String),
      header_row ≠ some r →
      mwMakeKey ic (mwExtractRowData sheet r) col1 col2 = some key → key ≠ "" →
      (r, mwExtractRowData sheet r) ∈
        (dictGet (L.foldl (mwRowsStep sheet header_row col1 col2 ic) m) key).getD [] := by
  induction L with
  | nil => intro _ r hr; cases hr
  | cons c L ih =>
    intro m r hr key hh hmk hne
    rw [List.foldl_cons]
    rcases List.mem_cons.mp hr with rfl | hr'
    · apply rowsFold_mem_mono
      unfold mwRowsStep
      rw [if_neg (fun h => hh h)]
      rw [hmk]
      simp only
      rw [if_pos hne, dictAppend_get_self]
      exact List.mem_append_right _ (List.mem_singleton.mpr rfl)
    · exact ih _ r hr' key hh hmk hne

/-- C5 counterexample: `SmartCompareService.build_key_map` stores a
*single* `(row_index, row_values)` pair per key and a later duplicate
overwrites the earlier one — with rows 0 and 1 both keyed `"k"`, the
resulting map holds only row 1; row 0 is silently dropped (and the value
shape is a pair, not a list of rows). -/
theorem C5_counterexample :
    build_key_map { use_key_column := true, key_column_index := 0 }
        [[.str "k", .str "a"], [.str "k", .str "b"]] false =
      [(.str "k", (1, [.str "k", .str "b"]))] ∧
    dictGet (build_key_map { use_key_column := true, key_column_index := 0 }
        [[.str "k", .str "a"], [.str "k", .str "b"]] false) (.str "k") =
      some (1, [.str "k", .str "b"]) := by
  exact ⟨rfl, rfl⟩

/-- C5 (amended).  In the `main_window` smart-match path the key map is
`key -> list[(row_index, row_values)]` and *every* non-header row whose
`make_key` result is truthy is retained under its key (duplicates
included).  In `SmartCompareService.build_key_map` the map is
`key -> (row_index, row_values)` and a later row with the same key
overwrites the earlier one; moreover inclusion there tests the *raw* key
for emptiness, so a whitespace key under `ignore_whitespace` is retained
under the empty normalized key. -/
theorem C5_key_map_retention :
    (∀ (sheet : SheetData) (header_row : Option ℕ) (col1 : ℕ) (col2 : Option ℕ)
        (ic : Bool) (r : ℕ) (key : String),
      r < sheet.row_count → header_row ≠ some r →
      mwMakeKey ic (mwExtractRowData sheet r) col1 col2 = some key → key ≠ "" →
      (r, mwExtractRowData sheet r) ∈
        (dictGet (mwBuildRowsMap sheet header_row col1 col2 ic) key).getD []) ∧
    build_key_map { use_key_column := true, key_column_index := 0 }
        [[.str "k", .str "a"], [.str "k", .str "b"]] false =
      [(.str "k", (1, [.str "k", .str "b"]))] ∧
    build_key_map
        { use_key_column := true, key_column_index := 0, ignore_whitespace := true }
        [[.str " ", .str "a"]] false =
      [(.str "", (0, [.str " ", .str "a"]))] := by
  refine ⟨?_, rfl, rfl⟩
  intro sheet header_row col1 col2 ic r key hr hh hmk hne
  exact rowsFold_mem sheet header_row col1 col2 ic (List.range sheet.row_count) []
    r (List.mem_range.mpr hr) key hh hmk hne

/-- Closed instantiation of `C5_key_map_retention`: both duplicate rows
of key `"x|1"` in `c2SheetA` are retained in the handler path's map. -/
theorem C5_witness :
    ((0 : ℕ), mwExtractRowData c2SheetA 0) ∈
      (dictGet (mwBuildRowsMap c2SheetA Option.none 0 (some 1) false) "x|1").getD [] ∧
    ((5 : ℕ), mwExtractRowData c2SheetA 5) ∈
      (dictGet (mwBuildRowsMap c2SheetA Option.none 0 (some 1) false) "x|1").getD [] := by
  constructor
  · exact C5_key_map_retention.1 c2SheetA Option.none 0 (some 1) false 0 "x|1"
      (by decide) (by decide) (by decide) (by decide)
  · exact C5_key_map_retention.1 c2SheetA Option.none 0 (some 1) false 5 "x|1"
      (by decide) (by decide) (by decide) (by decide)

/-! ## Claim C6 — DiffRecord field invariants -/

/-- 1×1 sheets for the C6 counterexample: A-side `None`, B-side `0`. -/
def c6SheetA : SheetData :=
  { name := "S", rows := [[noneCell]], row_count := 1, col_count := 1 }

/-- B-side sheet holding the falsy non-empty number `0`. -/
def c6SheetB : SheetData :=
  { name := "S", rows := [[{ value := .num 0, cell_type := .number }]],
    row_count := 1, col_count := 1 }

/-- The 1×1 rectangle at the origin. -/
def c6Rect : SelRect := { min_row := 0, min_col := 0, max_row := 0, max_col := 0 }

/-- C6 counterexample.  (a) `_compare_cells` with `ignore_whitespace` on
the pair `(" ", "x")` yields an *Added* record that carries the raw
A-side `old_value = " "` (not `None`).  (b) The selection positional
handler on `(None, 0)` with *identical* rectangles (identity
correspondence) yields a *Modified* record with no `old_value` and with
`row_b`/`col_b` present. -/
theorem C6_counterexample :
    compareCells "S" 0 0 (some (strCell " ")) (some (strCell "x"))
        { ignore_whitespace := true } =
      some { sheet := "S", row := 0, col := 0, diff_type := .added,
             old_value := .str " ", new_value := .str "x" } ∧
    (.str " " : PyVal) ≠ .none ∧
    mwCompareByPosition "S" c6SheetA c6SheetB c6Rect c6Rect {} =
      [{ sheet := "S", row := 0, col := 0, diff_type := .modified,
         old_value := .none, new_value := .num 0,
         row_b := some 0, col_b := some 0 }] := by
  exact ⟨rfl, by decide, rfl⟩

/-- C6 (amended).  Per-path record invariants that do hold:
(1) the numeric path carries exactly the claimed sides (`Added`: no old
value, a new value; `Deleted`: the reverse; `Modified`: both) and never
sets `row_b`/`col_b`; (2) `_mark_all_cells` records carry only the
surviving side and no B coordinates; (3) the whole-row records for
unmatched key rows behave likewise (`Added` rows also record their B
position); (4) in `_compare_cells` an `Added` record arises exactly from
an A-side that is empty *after normalization* (its raw `old_value` may
still be a non-`None` string such as whitespace), symmetrically for
`Deleted`, and `Modified` has both sides non-empty; (5) the selection
positional path sets `row_b`/`col_b` on every record, identity
correspondence or not. -/
theorem C6_record_invariants :
    (∀ (name : String) (r c : ℕ) (ca cb : Option CellData) (d : DiffResult),
      numericCellDiff name r c ca cb = some d →
      (d.diff_type = .added → d.old_value = .none ∧ d.new_value ≠ .none) ∧
      (d.diff_type = .deleted → d.old_value ≠ .none ∧ d.new_value = .none) ∧
      (d.diff_type = .modified → d.old_value ≠ .none ∧ d.new_value ≠ .none) ∧
      d.row_b = Option.none ∧ d.col_b = Option.none) ∧
    (∀ (sheet : SheetData) (dt : DiffType) (is_new : Bool) (d : DiffResult),
      d ∈ markAllCells sheet dt is_new →
      d.diff_type = dt ∧ d.row_b = Option.none ∧ d.col_b = Option.none ∧
      (is_new = true → d.old_value = .none ∧ d.new_value ≠ .none) ∧
      (is_new = false → d.new_value = .none ∧ d.old_value ≠ .none)) ∧
    (∀ (name : String) (is_added : Bool) (r : ℕ) (data : List PyVal)
        (d : DiffResult), d ∈ mwUnmatchedRowDiffs name is_added r data →
      (is_added = true → d.diff_type = .added ∧ d.old_value = .none ∧
        d.row_b = some r) ∧
      (is_added = false → d.diff_type = .deleted ∧ d.new_value = .none ∧
        d.row_b = Option.none ∧ d.col_b = Option.none)) ∧
    (∀ (name : String) (r c : ℕ) (ca cb : Option CellData)
        (opts : CompareOptions) (d : DiffResult),
      compareCells name r c ca cb opts = some d →
      (d.diff_type = .added →
        pyIsEmpty (normalizePair opts (optCellVal ca) (optCellVal cb)).1 = true ∧
        pyIsEmpty (normalizePair opts (optCellVal ca) (optCellVal cb)).2 = false) ∧
      (d.diff_type = .deleted →
        pyIsEmpty (normalizePair opts (optCellVal ca) (optCellVal cb)).1 = false ∧
        pyIsEmpty (normalizePair opts (optCellVal ca) (optCellVal cb)).2 = true) ∧
      (d.diff_type = .modified →
        pyIsEmpty (normalizePair opts (optCellVal ca) (optCellVal cb)).1 = false ∧
        pyIsEmpty (normalizePair opts (optCellVal ca) (optCellVal cb)).2 = false)) ∧
    (∀ (name : String) (sa sb : SheetData) (ra rb : SelRect)
        (opts : CompareOptions) (d : DiffResult),
      d ∈ mwCompareByPosition name sa sb ra rb opts →
      d.row_b ≠ Option.none ∧ d.col_b ≠ Option.none) := by
  refine ⟨?_, ?_, ?_, ?_, ?_⟩
  · intro name r c ca cb d hd
    unfold numericCellDiff at hd
    cases hva : toNumeric ca <;> cases hvb : toNumeric cb <;>
      rw [hva, hvb] at hd <;> dsimp only at hd <;>
      split_ifs at hd <;>
      first
        | exact Option.noConfusion hd
        | exact absurd rfl (by assumption)
        | (rw [Option.some.injEq] at hd
           subst hd
           simp_all [optQToVal])
  · intro sheet dt is_new d hd
    simp only [markAllCells, List.mem_flatMap, List.mem_range,
      List.mem_filterMap] at hd
    obtain ⟨row, _, col, _, hsome⟩ := hd
    cases hcell : sheet.get_cell row col with
    | none => rw [hcell] at hsome; exact Option.noConfusion hsome
    | some cell =>
        rw [hcell] at hsome
        dsimp only at hsome
        split_ifs at hsome <;>
          first
            | exact Option.noConfusion hsome
            | (rw [Option.some.injEq] at hsome
               subst hsome
               cases is_new <;> simp_all [CellData.is_empty, pyIsEmpty])
  · intro name is_added r data d hd
    simp only [mwUnmatchedRowDiffs, List.mem_filterMap] at hd
    obtain ⟨⟨col, val⟩, _, hsome⟩ := hd
    dsimp only at hsome
    split_ifs at hsome <;>
      first
        | exact Option.noConfusion hsome
        | (rw [Option.some.injEq] at hsome
           subst hsome
           cases is_added <;> simp_all)
  · intro name r c ca cb opts d hd
    unfold compareCells at hd
    dsimp only at hd
    split_ifs at hd <;>
      first
        | exact Option.noConfusion hd
        | (rw [Option.some.injEq] at hd
           subst hd
           refine ⟨?_, ?_, ?_⟩ <;> intro hk <;>
             cases hA : pyIsEmpty ((normalizePair opts (optCellVal ca) (optCellVal cb)).1) <;>
             cases hB : pyIsEmpty ((normalizePair opts (optCellVal ca) (optCellVal cb)).2) <;>
             simp_all)
  · intro name sa sb ra rb opts d hd
    simp only [mwCompareByPosition, List.mem_flatMap, List.mem_range,
      List.mem_filterMap, Option.ite_none_right_eq_some, Option.some.injEq] at hd
    obtain ⟨ro, _, co, _, _, rfl⟩ := hd
    simp

/-- Closed instantiation of `C6_record_invariants`: the numeric-path
invariant applied at `("abc" text, 3 number)` — the produced Added
record has no old value and a non-`None` new value. -/
theorem C6_witness :
    ({ sheet := "S", row := 0, col := 0, diff_type := .added,
       old_value := .none, new_value := .num 3 } : DiffResult).old_value = .none ∧
    ({ sheet := "S", row := 0, col := 0, diff_type := .added,
       old_value := .none, new_value := .num 3 } : DiffResult).new_value ≠ .none := by
  have h := C6_record_invariants.1 "S" 0 0
    (some { value := .str "abc", cell_type := .string })
    (some { value := .num 3, cell_type := .number })
    { sheet := "S", row := 0, col := 0, diff_type := .added,
      old_value := .none, new_value := .num 3 } (by rfl)
  exact h.1 rfl

/-! ## Claim C7 — header fallback behaviour -/

lemma mwBuildHeaders_oob (sheet : SheetData) (hr : ℕ)
    (h : sheet.rows.length ≤ hr) : mwBuildHeaders sheet hr = [] := by
  unfold mwBuildHeaders
  have hcell : ∀ col, sheet.get_cell hr col = Option.none := by
    intro col
    unfold SheetData.get_cell
    rw [List.get?_len_le h]
  have : ∀ (L : List ℕ) (m : List (String × ℕ)),
      L.foldl (mwHeaderStep sheet hr) m = m := by
    intro L
    induction L with
    | nil => exact fun m => rfl
    | cons c L ih =>
        intro m
        rw [List.foldl_cons]
        rw [show mwHeaderStep sheet hr m c = m from by
          unfold mwHeaderStep
          rw [hcell c]
          simp [optCellVal]]
        exact ih m
  exact this _ []

lemma mwRowsStep_irrelevant_header (sheet : SheetData) (hr : ℕ) (c1 : ℕ)
    (c2 : Option ℕ) (ic : Bool) (m : List (String × List (ℕ × List PyVal)))
    (r : ℕ) (h : r ≠ hr) :
    mwRowsStep sheet (some hr) c1 c2 ic m r =
      mwRowsStep sheet Option.none c1 c2 ic m r := by
  unfold mwRowsStep
  rw [if_neg (fun hc => h (by injection hc with h'; exact h'.symm))]
  rw [if_neg (fun hc => Option.noConfusion hc)]

lemma mwBuildRowsMap_header_oob (sheet : SheetData) (hr : ℕ) (c1 : ℕ)
    (c2 : Option ℕ) (ic : Bool) (h : sheet.row_count ≤ hr) :
    mwBuildRowsMap sheet (some hr) c1 c2 ic =
      mwBuildRowsMap sheet Option.none c1 c2 ic := by
  unfold mwBuildRowsMap
  have : ∀ (L : List ℕ) (m : List (String × List (ℕ × List PyVal))),
      (∀ r ∈ L, r ≠ hr) →
      L.foldl (mwRowsStep sheet (some hr) c1 c2 ic) m =
        L.foldl (mwRowsStep sheet Option.none c1 c2 ic) m := by
    intro L
    induction L with
    | nil => exact fun m _ => rfl
    | cons r L ih =>
        intro m hne
        rw [List.foldl_cons, List.foldl_cons,
          mwRowsStep_irrelevant_header sheet hr c1 c2 ic m r
            (hne r (List.mem_cons_self _ _))]
        exact ih _ (fun x hx => hne x (List.mem_cons_of_mem _ hx))
  exact this _ [] (fun r hr' => Nat.ne_of_lt (lt_of_lt_of_le
    (List.mem_range.mp hr') h))

/-- C7 counterexample: an out-of-bounds header row index makes
`SmartCompareService._compare_by_header` *raise* (modelled as an error
result) rather than fall back; and an in-bounds header row with no
non-empty entries yields an empty correspondence under which *nothing*
is compared — the value difference `"x"` vs `"y"` that the positional
comparator does report is silently dropped, so the fallback the claim
describes does not happen either. -/
theorem C7_counterexample :
    compare_by_header "S" [[.str "h"]] [[.str "h"]]
        { use_header_row := true, header_row_index := 5 } 0 0 =
      .error "header row index out of data range" ∧
    compare_by_header "S" [[.none], [.str "x"]] [[.none], [.str "y"]]
        { use_header_row := true, header_row_index := 0 } 0 0 = .ok [] ∧
    compare_by_position "S" [[.none], [.str "x"]] [[.none], [.str "y"]]
        { use_header_row := true, header_row_index := 0 } 0 0 =
      [{ sheet := "S", row := 1, col := 0, diff_type := .modified,
         old_value := .str "x", new_value := .str "y" }] := by
  exact ⟨rfl, rfl, rfl⟩

/-- C7 (amended).  (1) In `SmartCompareService._compare_by_header` a
header-row index beyond either extracted data extent raises (error
result, no diffs); (2) an in-bounds header row whose A-side map is empty
yields `ok []` — no error, but no positional fallback either.  (3) In
the `main_window` smart-match path an out-of-bounds header row is
harmless: with a key column configured the whole comparison behaves
exactly as if no header row were configured (empty maps, positional
column comparison), and (4) in header-only mode it compares nothing. -/
theorem C7_header_fallback :
    (∀ (name : String) (data_a data_b : List (List PyVal))
        (opts : SmartCompareOptions) (ro co : ℕ),
      data_a.length ≤ opts.header_row_index ∨
        data_b.length ≤ opts.header_row_index →
      compare_by_header name data_a data_b opts ro co =
        .error "header row index out of data range") ∧
    (∀ (name : String) (data_a data_b : List (List PyVal))
        (opts : SmartCompareOptions) (ro co : ℕ),
      opts.header_row_index < data_a.length →
      opts.header_row_index < data_b.length →
      build_header_map opts ((data_a.get? opts.header_row_index).getD []) = [] →
      compare_by_header name data_a data_b opts ro co = .ok []) ∧
    (∀ (keyOrder : List String) (name : String) (sa sb : SheetData)
        (k1a : ℕ) (k2a k1b k2b : Option ℕ) (hr : ℕ) (opts : CompareOptions),
      sa.rows.length ≤ hr → sb.rows.length ≤ hr →
      sa.row_count ≤ hr → sb.row_count ≤ hr →
      mwSmartMatchSheet keyOrder name sa sb (some k1a) k2a k1b k2b (some hr) opts =
        mwSmartMatchSheet keyOrder name sa sb (some k1a) k2a k1b k2b
          Option.none opts) ∧
    (∀ (keyOrder : List String) (name : String) (sa sb : SheetData)
        (k2a k1b k2b : Option ℕ) (hr : ℕ) (opts : CompareOptions),
      sa.rows.length ≤ hr → sb.rows.length ≤ hr →
      mwSmartMatchSheet keyOrder name sa sb Option.none k2a k1b k2b (some hr)
        opts = []) := by
  refine ⟨?_, ?_, ?_, ?_⟩
  · intro name data_a data_b opts ro co h
    unfold compare_by_header
    rw [if_pos]
    omega
  · intro name data_a data_b opts ro co h1 h2 hmap
    unfold compare_by_header
    rw [if_neg (by omega)]
    simp only [hmap]
    rfl
  · intro keyOrder name sa sb k1a k2a k1b k2b hr opts hA hB hrcA hrcB
    unfold mwSmartMatchSheet
    dsimp only
    rw [mwBuildHeaders_oob sa hr hA, mwBuildHeaders_oob sb hr hB,
      mwBuildRowsMap_header_oob sa hr k1a k2a opts.ignore_case hrcA,
      mwBuildRowsMap_header_oob sb hr ((k1b).getD k1a) k2b opts.ignore_case hrcB]
    rfl
  · intro keyOrder name sa sb k2a k1b k2b hr opts hA hB
    unfold mwSmartMatchSheet
    dsimp only
    rw [mwBuildHeaders_oob sa hr hA, mwBuildHeaders_oob sb hr hB]
    apply List.flatMap_eq_nil_iff.mpr
    intro r _
    split
    · rfl
    · rfl

/-- Closed instantiation of `C7_header_fallback`: the error at header row
5 over one-row data, and the out-of-bounds header equivalence at a
concrete sheet pair. -/
theorem C7_witness :
    compare_by_header "S" [[.str "h"]] [[.str "h"]]
        { use_header_row := true, header_row_index := 5 } 0 0 =
      .error "header row index out of data range" ∧
    mwSmartMatchSheet ["x|1"] "S" c2SheetA c2SheetB (some 0) (some 1) (some 0)
        (some 1) (some 99) {} =
      mwSmartMatchSheet ["x|1"] "S" c2SheetA c2SheetB (some 0) (some 1) (some 0)
        (some 1) Option.none {} := by
  constructor
  · exact C7_header_fallback.1 "S" [[.str "h"]] [[.str "h"]]
      { use_header_row := true, header_row_index := 5 } 0 0 (by left; decide)
  · exact C7_header_fallback.2.2.1 ["x|1"] "S" c2SheetA c2SheetB 0 (some 1)
      (some 0) (some 1) 99 {} (by decide) (by decide) (by decide) (by decide)

/-! ## Claim C8 — numeric mode -/

/-- The spec's wording of the numeric classification: no diff when the
parsed pair is equal, otherwise Added exactly when only the B side has a
numeric value, Deleted exactly when only the A side has one, Modified
otherwise. -/
def specNumericClassify (va vb : Option ℚ) : Option DiffType :=
  if va = vb then Option.none
  else some (if va = Option.none ∧ vb ≠ Option.none then .added
    else if va ≠ Option.none ∧ vb = Option.none then .deleted
    else .modified)

/-- C8: `_to_numeric` converts exactly as the claim states (Number cells
parse directly, Text cells attempt a float parse, every other type and a
missing cell become `None`); the per-cell numeric diff's kind refines
`specNumericClassify` over the parsed pair; the recorded old/new values
are the parsed numbers; and the claim's two concrete instances hold:
A=`"3"` (text) vs B=`3` (number) is no diff, A=`"abc"` vs B=`3` is an
Added record carrying the parsed values. -/
theorem C8_numeric_mode :
    (∀ (cell : CellData), toNumeric (some cell) =
      match cell.cell_type with
      | .number => pyFloatOfVal cell.value
      | .string => pyFloatOfVal cell.value
      | _ => Option.none) ∧
    toNumeric Option.none = Option.none ∧
    (∀ (q : ℚ), pyFloatOfVal (.num q) = some q) ∧
    (∀ (s : String), pyFloatOfVal (.str s) = pyParseFloat s) ∧
    pyFloatOfVal .none = Option.none ∧
    (∀ (name : String) (r c : ℕ) (ca cb : Option CellData),
      (numericCellDiff name r c ca cb).map DiffResult.diff_type =
        specNumericClassify (toNumeric ca) (toNumeric cb)) ∧
    (∀ (name : String) (r c : ℕ) (ca cb : Option CellData) (d : DiffResult),
      numericCellDiff name r c ca cb = some d →
      d.old_value = optQToVal (toNumeric ca) ∧
      d.new_value = optQToVal (toNumeric cb)) ∧
    numericCellDiff "S" 0 0 (some { value := .str "3", cell_type := .string })
        (some { value := .num 3, cell_type := .number }) = Option.none ∧
    numericCellDiff "S" 0 0 (some { value := .str "abc", cell_type := .string })
        (some { value := .num 3, cell_type := .number }) =
      some { sheet := "S", row := 0, col := 0, diff_type := .added,
             old_value := .none, new_value := .num 3 } := by
  refine ⟨fun cell => rfl, rfl, fun q => rfl, fun s => rfl, rfl, ?_, ?_, ?_, ?_⟩
  · intro name r c ca cb
    unfold numericCellDiff specNumericClassify
    by_cases h : toNumeric ca = toNumeric cb
    · rw [if_neg (by simpa using h), if_pos h]
      rfl
    · rw [if_pos (by simpa using h), if_neg h]
      rfl
  · intro name r c ca cb d hd
    unfold numericCellDiff at hd
    dsimp only at hd
    split_ifs at hd <;>
      first
        | exact Option.noConfusion hd
        | (rw [Option.some.injEq] at hd
           subst hd
           exact ⟨rfl, rfl⟩)
  · decide
  · decide

/-- Closed instantiation of `C8_numeric_mode`: the recorded values at
the `("abc", 3)` instance. -/
theorem C8_witness :
    ({ sheet := "S", row := 0, col := 0, diff_type := .added,
       old_value := .none, new_value := .num 3 } : DiffResult).old_value =
      optQToVal (toNumeric (some { value := .str "abc", cell_type := .string })) ∧
    ({ sheet := "S", row := 0, col := 0, diff_type := .added,
       old_value := .none, new_value := .num 3 } : DiffResult).new_value =
      optQToVal (toNumeric (some { value := .num 3, cell_type := .number })) := by
  exact C8_numeric_mode.2.2.2.2.2.2.1 "S" 0 0
    (some { value := .str "abc", cell_type := .string })
    (some { value := .num 3, cell_type := .number })
    { sheet := "S", row := 0, col := 0, diff_type := .added,
      old_value := .none, new_value := .num 3 } (by decide)

/-! ## Claim C9 — selection column-span contract -/

/-- C9: `_compare_selection` rejects two rectangles with unequal column
spans before anything else runs — for *every* key/header configuration
and key iteration order the result is the column-mismatch rejection
(and hence no diff records); conversely a successful compare implies the
spans were equal. -/
theorem C9_selection_colspan :
    (∀ (keyOrder : List String) (name : String)
        (saO sbO : Option SheetData) (range_a range_b : SelRect)
        (k1 k2 : Option ℤ) (hdr : Option ℕ) (opts : CompareOptions),
      range_a.colSpan ≠ range_b.colSpan →
      compareSelection keyOrder name saO sbO range_a range_b k1 k2 hdr opts =
        .error .colSpanMismatch) ∧
    (∀ (keyOrder : List String) (name : String)
        (saO sbO : Option SheetData) (range_a range_b : SelRect)
        (k1 k2 : Option ℤ) (hdr : Option ℕ) (opts : CompareOptions)
        (diffs : List DiffResult),
      compareSelection keyOrder name saO sbO range_a range_b k1 k2 hdr opts =
        .ok diffs →
      range_a.colSpan = range_b.colSpan) := by
  constructor
  · intro keyOrder name saO sbO range_a range_b k1 k2 hdr opts h
    unfold compareSelection
    rw [if_pos h]
  · intro keyOrder name saO sbO range_a range_b k1 k2 hdr opts diffs hok
    by_contra h
    unfold compareSelection at hok
    rw [if_pos h] at hok
    exact Except.noConfusion hok

/-- Closed instantiation of `C9_selection_colspan`: a 1×2 against a 1×1
selection (equal row spans) is rejected with the column-span error. -/
theorem C9_witness :
    compareSelection [] "S" (some c2SheetA) (some c2SheetB)
        { min_row := 0, min_col := 0, max_row := 0, max_col := 1 }
        { min_row := 0, min_col := 0, max_row := 0, max_col := 0 }
        Option.none Option.none Option.none {} =
      .error .colSpanMismatch := by
  exact C9_selection_colspan.1 [] "S" (some c2SheetA) (some c2SheetB)
    { min_row := 0, min_col := 0, max_row := 0, max_col := 1 }
    { min_row := 0, min_col := 0, max_row := 0, max_col := 0 }
    Option.none Option.none Option.none {} (by decide)

/-! ## Claim C10 — workbook-level compare -/

lemma filterMap_length_eq_filter {α β : Type} (f : α → Option β) (p : α → Bool)
    (hf : ∀ a, (f a).isSome = p a) :
    ∀ L : List α, (L.filterMap f).length = (L.filter p).length := by
  intro L
  induction L with
  | nil => rfl
  | cons a L ih =>
      cases hfa : f a with
      | none =>
          have hp : p a = false := by rw [← hf a, hfa]; rfl
          simp [List.filterMap_cons, List.filter_cons, hfa, hp, ih]
      | some b =>
          have hp : p a = true := by rw [← hf a, hfa]; rfl
          simp [List.filterMap_cons, List.filter_cons, hfa, hp, ih]

/-- Spec-side count of the non-empty cells within the declared extent of
a sheet ("one record per non-empty cell"). -/
def specNonEmptyCount (sheet : SheetData) : ℕ :=
  ((List.range sheet.row_count).map (fun r =>
    ((List.range sheet.col_count).filter (fun c =>
      match sheet.get_cell r c with
      | some cell => ¬cell.is_empty
      | Option.none => false)).length)).sum

lemma compareFold_diffs (wa wb : WorkbookData) (mode : CompareMode)
    (opts : CompareOptions) :
    ∀ (L : List String) (acc : List DiffResult × DiffSummary),
      (L.foldl (compareStep wa wb mode opts) acc).1 =
        acc.1 ++ L.flatMap (compareSheetDiffs wa wb mode opts) := by
  intro L
  induction L with
  | nil => intro acc; simp
  | cons n L ih =>
      intro acc
      rw [List.foldl_cons, ih]
      unfold compareStep
      simp [List.flatMap_cons]

lemma compareFold_summary (wa wb : WorkbookData) (mode : CompareMode)
    (opts : CompareOptions) :
    ∀ (L : List String) (acc : List DiffResult × DiffSummary) (s0 : DiffSummary),
      acc.2 = acc.1.foldl (fun s d => s.add_diff d.diff_type) s0 →
      (L.foldl (compareStep wa wb mode opts) acc).2 =
        (L.foldl (compareStep wa wb mode opts) acc).1.foldl
          (fun s d => s.add_diff d.diff_type) s0 := by
  intro L
  induction L with
  | nil => exact fun acc s0 h => h
  | cons n L ih =>
      intro acc s0 h
      rw [List.foldl_cons]
      apply ih
      unfold compareStep
      dsimp only
      rw [List.foldl_append, ← h]

/-- C10: the target sheet set is the union of the two workbooks' sheet
names, intersected with a truthy `selected_sheets` (unknown selected
names are silently ignored); a sheet present on one side only maps to
`_mark_all_cells` with the corresponding kind; `_mark_all_cells` emits
exactly one record per non-empty cell of the declared extent (count
equality plus coverage); and the returned diff list and summary are the
flatMap of the per-sheet diffs and the pure `add_diff` fold over that
list. -/
theorem C10_workbook_compare :
    (∀ (wa wb : WorkbookData) (selected : List String) (name : String),
      name ∉ wa.sheet_names → name ∉ wb.sheet_names →
      sheetInTarget wa wb (some selected) name = false) ∧
    (∀ (wa wb : WorkbookData) (selected : List String) (name : String),
      selected ≠ [] →
      (sheetInTarget wa wb (some selected) name = true ↔
        name ∈ selected ∧ (name ∈ wa.sheet_names ∨ name ∈ wb.sheet_names))) ∧
    (∀ (wa wb : WorkbookData) (name : String),
      sheetInTarget wa wb Option.none name = true ↔
        (name ∈ wa.sheet_names ∨ name ∈ wb.sheet_names)) ∧
    (∀ (wa wb : WorkbookData) (mode : CompareMode) (opts : CompareOptions)
        (name : String) (sb : SheetData),
      wa.get_sheet name = Option.none → wb.get_sheet name = some sb →
      compareSheetDiffs wa wb mode opts name = markAllCells sb .added true) ∧
    (∀ (wa wb : WorkbookData) (mode : CompareMode) (opts : CompareOptions)
        (name : String) (sa : SheetData),
      wa.get_sheet name = some sa → wb.get_sheet name = Option.none →
      compareSheetDiffs wa wb mode opts name = markAllCells sa .deleted false) ∧
    (∀ (sheet : SheetData) (dt : DiffType) (is_new : Bool),
      (markAllCells sheet dt is_new).length = specNonEmptyCount sheet) ∧
    (∀ (sheet : SheetData) (dt : DiffType) (is_new : Bool) (r c : ℕ)
        (cell : CellData), r < sheet.row_count → c < sheet.col_count →
      sheet.get_cell r c = some cell → ¬cell.is_empty →
      ({ sheet := sheet.name, row := r, col := c, diff_type := dt,
         old_value := if is_new then .none else cell.value,
         new_value := if is_new then cell.value else .none } : DiffResult) ∈
        markAllCells sheet dt is_new) ∧
    (∀ (wa wb : WorkbookData) (mode : CompareMode) (opts : CompareOptions)
        (sheetOrder : List String),
      (CompareService.compare wa wb mode opts sheetOrder).diffs =
        sheetOrder.flatMap (compareSheetDiffs wa wb mode opts)) ∧
    (∀ (wa wb : WorkbookData) (mode : CompareMode) (opts : CompareOptions)
        (sheetOrder : List String),
      (CompareService.compare wa wb mode opts sheetOrder).summary =
        (CompareService.compare wa wb mode opts sheetOrder).diffs.foldl
          (fun s d => s.add_diff d.diff_type) {}) := by
  refine ⟨?_, ?_, ?_, ?_, ?_, ?_, ?_, ?_, ?_⟩
  · intro wa wb selected name h1 h2
    unfold sheetInTarget
    dsimp only
    split_ifs with hsel
    · simp [h1, h2]
    · simp [h1, h2]
  · intro wa wb selected name hsel
    unfold sheetInTarget
    dsimp only
    rw [if_pos hsel]
    simp
  · intro wa wb name
    unfold sheetInTarget
    simp
  · intro wa wb mode opts name sb h1 h2
    unfold compareSheetDiffs
    rw [h1, h2]
  · intro wa wb mode opts name sa h1 h2
    unfold compareSheetDiffs
    rw [h1, h2]
  · intro sheet dt is_new
    unfold markAllCells specNonEmptyCount
    rw [List.length_flatMap]
    congr 1
    apply List.map_congr_left
    intro r _
    simp only [Function.comp_apply]
    apply filterMap_length_eq_filter
    intro c
    cases hc : sheet.get_cell r c with
    | none => rfl
    | some cell =>
        by_cases he : ¬cell.is_empty = true
        · simp [he]
        · simp [he]
  · intro sheet dt is_new r c cell hr hc hcell hne
    unfold markAllCells
    rw [List.mem_flatMap]
    refine ⟨r, List.mem_range.mpr hr, ?_⟩
    rw [List.mem_filterMap]
    refine ⟨c, List.mem_range.mpr hc, ?_⟩
    rw [hcell]
    simp only [hne, if_pos, ite_true]
    rfl
  · intro wa wb mode opts sheetOrder
    show (sheetOrder.foldl (compareStep wa wb mode opts) ([], {})).1 = _
    rw [compareFold_diffs]
    rfl
  · intro wa wb mode opts sheetOrder
    show (sheetOrder.foldl (compareStep wa wb mode opts) ([], {})).2 = _
    exact compareFold_summary wa wb mode opts sheetOrder ([], {}) {} rfl

/-- One-cell sheet present only in workbook B. -/
def c10SheetT : SheetData :=
  { name := "T", rows := [[strCell "v"]], row_count := 1, col_count := 1 }

/-- Workbook A of the C10 witness (sheet `"S"` only). -/
def c10WbA : WorkbookData :=
  { file_name := "a", sheets := [c2SheetA], sheet_names := ["S"] }

/-- Workbook B of the C10 witness (sheet `"T"` only). -/
def c10WbB : WorkbookData :=
  { file_name := "b", sheets := [c10SheetT], sheet_names := ["T"] }

/-- Closed instantiation of `C10_workbook_compare`: the B-only-sheet
branch and the count equality at a concrete pair of workbooks. -/
theorem C10_witness :
    compareSheetDiffs c10WbA c10WbB .exact {} "T" =
      markAllCells c10SheetT .added true ∧
    (markAllCells c10SheetT .added true).length = specNonEmptyCount c10SheetT := by
  constructor
  · exact C10_workbook_compare.2.2.2.1 c10WbA c10WbB .exact {} "T" c10SheetT
      (by decide) (by decide)
  · exact C10_workbook_compare.2.2.2.2.2.1 c10SheetT .added true
